import Mathlib

/-!
Verification of the emergency-dispatch agent (`emergency_contact_agent`).

This file gives a shallow embedding of the dispatch decision core of the
repository and proves (or refutes) the frozen claims about it:

* the per-category fleet registries and their operations
  (`src/app/dispatcher/ambulance_tools.py`, `fire_tools.py`,
  `police_tools.py`): nearby/nearest searches, dispatch, completion and
  status updates;
* the three severity/threat assessment functions
  (`assess_ambulance_need`, `assess_fire_severity`, `assess_threat_level`);
* the conversation-state machine and the orchestrator's tool-result folding
  (`src/app/llm/state_manager.py`, `src/app/llm/orchestrator.py`).

Modelling conventions:

* SQLite tables become Lean lists of structures; `id` columns are `ℕ`;
  SQL integers that the code may drive negative (station unit counters)
  are `ℤ`.  A `SELECT ... WHERE id = ?` becomes `List.find?`; ids are
  primary keys (`setup_database.py` declares `INTEGER PRIMARY KEY`), so a
  join on an id is a `find?` as well.  `UPDATE ... WHERE id = ?` becomes a
  `List.map` that rewrites the matching rows.
* Python floats become `ℚ`.  The haversine `calculate_distance` uses
  transcendental functions that have no computable rational counterpart,
  so every fleet query takes the distance function as an explicit
  parameter `dist : Dist`; all claims proved here hold for an arbitrary
  distance function, haversine included.
* Python's `round(x, 2)` becomes `round2` and `int(x)` truncation inside
  `max(1, int(d/v*60))` becomes a floor (the two agree once clamped from
  below by 1).  Both are implemented on `Rat.num`/`Rat.den` directly so
  that concrete states evaluate by `decide`.
* Functions that return `{"success": False, "error": ...}` dictionaries
  become functions into explicit result types carrying the same error
  strings.  The `try/except` wrappers around database access model
  infrastructure failure only and are not represented.
-/

namespace EmergencyDispatch

/-! ## String helpers

Python's `in` operator on strings (substring test), `str.lower`, and
`' '.join` as used by the assessment and orchestrator code. -/

/-- `charsLead needle hay`: `needle` is an initial run of `hay`
(models Python `hay.startswith(needle)` on character lists). -/
def charsLead : List Char → List Char → Bool
  | [], _ => true
  | _ :: _, [] => false
  | a :: as, b :: bs => a == b && charsLead as bs

/-- `charsHave hay needle`: `needle` occurs contiguously inside `hay`
(models Python `needle in hay`). -/
def charsHave : List Char → List Char → Bool
  | [], needle => charsLead needle []
  | c :: t, needle => charsLead needle (c :: t) || charsHave t needle

/-- Python `needle in hay` on strings. -/
def strIn (needle hay : String) : Bool :=
  charsHave hay.data needle.data

/-- Python `s.lower()`.  (Defined through `List.map` on the character data
so that it reduces inside the kernel.) -/
def lowerStr (s : String) : String :=
  String.mk (s.data.map Char.toLower)

/-- Python `' '.join(l)`. -/
def joinSpace : List String → String
  | [] => ""
  | [s] => s
  | s :: rest => s ++ " " ++ joinSpace rest

/-- Python truthiness of an optional string filter argument
(`if ambulance_type:` — `None` and `""` are both falsy), applied as an
equality filter.  `optFilterOk f v` is true when the filter `f` does not
restrict `v`. -/
def optFilterOk (f : Option String) (v : String) : Bool :=
  match f with
  | none => true
  | some x => if x = "" then true else v == x

/-- Python `a or b` on optional strings (`None` and `""` are falsy), as
used for the `unit_identifier` fallback chain in `add_dispatch`. -/
def pyOr (a b : Option String) : Option String :=
  match a with
  | some s => if s = "" then b else some s
  | none => b

/-! ## Numeric helpers -/

/-- Python `round(q, 2)` (2-decimal rounding, as applied to reported
distances).  Implemented as `⌊q·100 + 1/2⌋ / 100` on the numerator and
denominator so that it evaluates by kernel reduction; exact half-way
binary-float ties (where Python banker-rounds) have no rational
counterpart. -/
def round2 (q : ℚ) : ℚ :=
  mkRat ((200 * q.num + q.den).fdiv (2 * (q.den : ℤ))) 100

/-- `estimate_arrival_time`: Python `max(1, int(distance_km / avg_speed_kmh * 60))`.
`int` truncates toward zero; under the `max 1` clamp this agrees with the
floor used here for every input.  The speed is a per-service constant. -/
def estimate_arrival_time (distance_km : ℚ) (avg_speed_kmh : ℤ) : ℤ :=
  max 1 ((60 * distance_km.num).fdiv ((distance_km.den : ℤ) * avg_speed_kmh))

/-- The repository's `calculate_distance` is the haversine great-circle
distance; its trigonometry is abstracted as an explicit parameter
`dist lat1 lon1 lat2 lon2`, and every theorem below holds for an arbitrary
distance function. -/
abbrev Dist := ℚ → ℚ → ℚ → ℚ → ℚ

/-! ## Sorting by distance (Python `list.sort(key=lambda x: x['distance_km'])`) -/

/-- Comparison by a rational-valued key. -/
def distLe {α : Type} (key : α → ℚ) (a b : α) : Prop :=
  key a ≤ key b

instance {α : Type} (key : α → ℚ) : DecidableRel (distLe key) :=
  fun a b => inferInstanceAs (Decidable (key a ≤ key b))

instance {α : Type} (key : α → ℚ) : IsTotal α (distLe key) :=
  ⟨fun a b => le_total (key a) (key b)⟩

instance {α : Type} (key : α → ℚ) : IsTrans α (distLe key) :=
  ⟨fun _ _ _ h1 h2 => le_trans h1 h2⟩

/-- Ascending stable sort by a rational key, as `list.sort(key=...)`. -/
def sortByDist {α : Type} (key : α → ℚ) (l : List α) : List α :=
  List.insertionSort (distLe key) l

/-! ## Ambulance fleet registry (`ambulance_tools.py`) -/

/-- A row of the `ambulances` table. -/
structure Ambulance where
  id : ℕ
  vehicle_number : String
  station_name : String
  latitude : ℚ
  longitude : ℚ
  status : String
  ambulance_type : String
deriving DecidableEq, Repr

/-- A row of the `ambulance_dispatches` table. -/
structure AmbulanceDispatch where
  id : ℕ
  ambulance_id : ℕ
  user_location_lat : ℚ
  user_location_lon : ℚ
  emergency_type : String
  patient_count : ℤ
  notes : Option String
  status : String
deriving DecidableEq, Repr

/-- The ambulance database: both tables plus the autoincrement counter
that SQLite uses for `ambulance_dispatches.id` (`cursor.lastrowid`). -/
structure AmbulanceState where
  ambulances : List Ambulance
  dispatches : List AmbulanceDispatch
  next_dispatch_id : ℕ
deriving DecidableEq, Repr

/-- An element of the list returned by `get_nearby_ambulances`: the
ambulance row enriched with `distance_km` (rounded) and
`estimated_arrival_minutes`. -/
structure AmbulanceEntry where
  amb : Ambulance
  distance_km : ℚ
  estimated_arrival_minutes : ℤ
deriving DecidableEq, Repr

/-- `get_nearby_ambulances(user_lat, user_lon, radius_km, ambulance_type)`:
select available (optionally type-filtered) ambulances, keep those within
`radius_km` of the caller, sort ascending by rounded distance. -/
def get_nearby_ambulances (dist : Dist) (s : AmbulanceState)
    (user_lat user_lon radius_km : ℚ) (ambulance_type : Option String) :
    List AmbulanceEntry :=
  let candidates := s.ambulances.filter fun a =>
    a.status == "available" && optFilterOk ambulance_type a.ambulance_type
  let nearby := candidates.filterMap fun a =>
    let d := dist user_lat user_lon a.latitude a.longitude
    if d ≤ radius_km then
      some ⟨a, round2 d, estimate_arrival_time d 40⟩
    else none
  sortByDist AmbulanceEntry.distance_km nearby

/-- Result of a nearest-unit search: the nearest entry, or the structured
`success: False` failure with its human-readable suggestion. -/
inductive FindResult (α : Type) where
  | found (x : α)
  | none_found (error suggestion : String)
deriving DecidableEq

/-- `get_nearest_ambulance(user_lat, user_lon, ambulance_type)`: nearby
search with `radius_km=50`, first entry or a no-ambulance failure. -/
def get_nearest_ambulance (dist : Dist) (s : AmbulanceState)
    (user_lat user_lon : ℚ) (ambulance_type : Option String) :
    FindResult AmbulanceEntry :=
  match get_nearby_ambulances dist s user_lat user_lon 50 ambulance_type with
  | [] => .none_found "No available ambulances found nearby"
      "Try expanding search or contact emergency services directly"
  | e :: _ => .found e

/-- Result of a state-mutating dispatch operation: the new dispatch id and
database state on success, or the structured failure (optionally carrying a
fallback suggestion, as the `dispatch_nearest_*` wrappers do). -/
inductive OpResult (σ : Type) where
  | ok (dispatch_id : ℕ) (state : σ)
  | failed (error : String)
  | failed_suggest (error suggestion : String)
deriving DecidableEq

/-- Whether an operation reported `success: True`. -/
def OpResult.isOk {σ : Type} : OpResult σ → Bool
  | .ok _ _ => true
  | _ => false

/-- The state after a successful operation (or `dflt` on failure). -/
def OpResult.stateD {σ : Type} (r : OpResult σ) (dflt : σ) : σ :=
  match r with
  | .ok _ s => s
  | _ => dflt

/-- The dispatch id returned by a successful operation (0 on failure). -/
def OpResult.idD {σ : Type} : OpResult σ → ℕ
  | .ok i _ => i
  | _ => 0

/-- `dispatch_ambulance`: look the unit up by id, fail if absent or not
available, otherwise mark it dispatched and insert one dispatch record
with status `dispatched`. -/
def dispatch_ambulance (s : AmbulanceState) (ambulance_id : ℕ)
    (user_lat user_lon : ℚ) (emergency_type : String) (patient_count : ℤ)
    (notes : Option String) : OpResult AmbulanceState :=
  match s.ambulances.find? (fun a => a.id == ambulance_id) with
  | none => .failed "Ambulance not found"
  | some amb =>
    if amb.status ≠ "available" then
      .failed ("Ambulance is currently " ++ amb.status)
    else
      .ok s.next_dispatch_id
        { ambulances := s.ambulances.map fun a =>
            if a.id == ambulance_id then { a with status := "dispatched" } else a
          dispatches := s.dispatches ++
            [⟨s.next_dispatch_id, ambulance_id, user_lat, user_lon,
              emergency_type, patient_count, notes, "dispatched"⟩]
          next_dispatch_id := s.next_dispatch_id + 1 }

/-- `complete_dispatch`: look the dispatch up by id, fail if absent,
otherwise mark it `completed` (overwriting its notes) and set the
referenced ambulance back to `available`.  The source never checks whether
the dispatch is already completed. -/
def complete_dispatch (s : AmbulanceState) (dispatch_id : ℕ)
    (notes : Option String) : OpResult AmbulanceState :=
  match s.dispatches.find? (fun d => d.id == dispatch_id) with
  | none => .failed "Dispatch not found"
  | some dispatch =>
    .ok dispatch_id
      { s with
        dispatches := s.dispatches.map fun d =>
          if d.id == dispatch_id then
            { d with status := "completed", notes := notes }
          else d
        ambulances := s.ambulances.map fun a =>
          if a.id == dispatch.ambulance_id then { a with status := "available" }
          else a }

/-! ## Fire fleet registry (`fire_tools.py`)

Fire trucks do not carry coordinates: their location is the owning
station's (`JOIN fire_stations s ON t.station_id = s.id`), and stations
carry the `available_units` / `total_units` capacity counters that the
fleet operations maintain. -/

/-- A row of the `fire_stations` table. -/
structure FireStation where
  id : ℕ
  station_name : String
  latitude : ℚ
  longitude : ℚ
  available_units : ℤ
  total_units : ℤ
deriving DecidableEq, Repr

/-- A row of the `fire_trucks` table. -/
structure FireTruck where
  id : ℕ
  station_id : ℕ
  vehicle_number : String
  truck_type : String
  status : String
deriving DecidableEq, Repr

/-- A row of the `fire_dispatches` table. -/
structure FireDispatch where
  id : ℕ
  fire_truck_id : ℕ
  user_location_lat : ℚ
  user_location_lon : ℚ
  fire_type : String
  severity : String
  people_trapped : ℤ
  notes : Option String
  status : String
deriving DecidableEq, Repr

/-- The fire database. -/
structure FireState where
  fire_stations : List FireStation
  fire_trucks : List FireTruck
  dispatches : List FireDispatch
  next_dispatch_id : ℕ
deriving DecidableEq, Repr

/-- The station row joined to a truck: `station_id` is the stations
table's primary key, so the SQL join yields the first (unique) match. -/
def stationOf (s : FireState) (t : FireTruck) : Option FireStation :=
  s.fire_stations.find? (fun st => st.id == t.station_id)

/-- An element of the list returned by `get_nearby_fire_trucks`: truck and
joined station, with rounded distance and ETA. -/
structure FireTruckEntry where
  truck : FireTruck
  station : FireStation
  distance_km : ℚ
  estimated_arrival_minutes : ℤ
deriving DecidableEq, Repr

/-- `get_nearby_fire_trucks(user_lat, user_lon, radius_km, truck_type)`:
join each available (optionally type-filtered) truck to its station, keep
trucks whose station is within `radius_km`, sort ascending by rounded
distance. -/
def get_nearby_fire_trucks (dist : Dist) (s : FireState)
    (user_lat user_lon radius_km : ℚ) (truck_type : Option String) :
    List FireTruckEntry :=
  let rows := s.fire_trucks.filterMap fun t =>
    match stationOf s t with
    | none => none
    | some st =>
      if t.status == "available" && optFilterOk truck_type t.truck_type then
        some (t, st)
      else none
  let nearby := rows.filterMap fun r =>
    let d := dist user_lat user_lon r.2.latitude r.2.longitude
    if d ≤ radius_km then
      some ⟨r.1, r.2, round2 d, estimate_arrival_time d 50⟩
    else none
  sortByDist FireTruckEntry.distance_km nearby

/-- `dispatch_fire_truck`: look the truck (joined to its station) up by
id, fail if the join is empty or the truck is not available, otherwise
mark it dispatched, decrement the station's `available_units`, and insert
one dispatch record with status `dispatched`. -/
def dispatch_fire_truck (s : FireState) (fire_truck_id : ℕ)
    (user_lat user_lon : ℚ) (fire_type severity : String)
    (people_trapped : ℤ) (notes : Option String) : OpResult FireState :=
  match s.fire_trucks.find? (fun t => t.id == fire_truck_id) with
  | none => .failed "Fire truck not found"
  | some truck =>
    match stationOf s truck with
    | none => .failed "Fire truck not found"
    | some _ =>
      if truck.status ≠ "available" then
        .failed ("Fire truck is currently " ++ truck.status)
      else
        .ok s.next_dispatch_id
          { fire_trucks := s.fire_trucks.map fun t =>
              if t.id == fire_truck_id then { t with status := "dispatched" }
              else t
            fire_stations := s.fire_stations.map fun st =>
              if st.id == truck.station_id then
                { st with available_units := st.available_units - 1 }
              else st
            dispatches := s.dispatches ++
              [⟨s.next_dispatch_id, fire_truck_id, user_lat, user_lon,
                fire_type, severity, people_trapped, notes, "dispatched"⟩]
            next_dispatch_id := s.next_dispatch_id + 1 }

/-- `dispatch_nearest_fire_truck`: nearby search with `radius_km=30`,
then dispatch the first hit; no-truck failure suggests calling 101. -/
def dispatch_nearest_fire_truck (dist : Dist) (s : FireState)
    (user_lat user_lon : ℚ) (fire_type severity : String)
    (people_trapped : ℤ) (truck_type : Option String)
    (notes : Option String) : OpResult FireState :=
  match get_nearby_fire_trucks dist s user_lat user_lon 30 truck_type with
  | [] => .failed_suggest "No available fire trucks found nearby"
      "Call emergency services directly at 101"
  | e :: _ =>
    dispatch_fire_truck s e.truck.id user_lat user_lon fire_type severity
      people_trapped notes

/-- `update_fire_truck_status`: validate the status value, look the truck
up, update its status, and adjust the station counter by ±1 exactly when
the change crosses the `available` boundary. -/
def update_fire_truck_status (s : FireState) (fire_truck_id : ℕ)
    (new_status : String) : OpResult FireState :=
  if ¬(new_status = "available" ∨ new_status = "busy" ∨
       new_status = "dispatched" ∨ new_status = "maintenance") then
    .failed "Invalid status"
  else
    match s.fire_trucks.find? (fun t => t.id == fire_truck_id) with
    | none => .failed "Fire truck not found"
    | some truck =>
      let old_status := truck.status
      .ok fire_truck_id
        { s with
          fire_trucks := s.fire_trucks.map fun t =>
            if t.id == fire_truck_id then { t with status := new_status }
            else t
          fire_stations := s.fire_stations.map fun st =>
            if st.id == truck.station_id then
              if old_status ≠ "available" ∧ new_status = "available" then
                { st with available_units := st.available_units + 1 }
              else if old_status = "available" ∧ new_status ≠ "available" then
                { st with available_units := st.available_units - 1 }
              else st
            else st }

/-- `complete_fire_dispatch`: look the dispatch up by id, fail if absent,
otherwise mark it `resolved`, set the referenced truck back to
`available`, and increment the truck's station counter.  The source never
checks whether the dispatch is already resolved, and the station counter
lookup reads the truck row fresh. -/
def complete_fire_dispatch (s : FireState) (dispatch_id : ℕ)
    (notes : Option String) : OpResult FireState :=
  match s.dispatches.find? (fun d => d.id == dispatch_id) with
  | none => .failed "Dispatch not found"
  | some dispatch =>
    match s.fire_trucks.find? (fun t => t.id == dispatch.fire_truck_id) with
    | none => .failed "Fire truck not found"
    | some truck =>
      .ok dispatch_id
        { s with
          dispatches := s.dispatches.map fun d =>
            if d.id == dispatch_id then
              { d with status := "resolved", notes := notes }
            else d
          fire_trucks := s.fire_trucks.map fun t =>
            if t.id == dispatch.fire_truck_id then
              { t with status := "available" }
            else t
          fire_stations := s.fire_stations.map fun st =>
            if st.id == truck.station_id then
              { st with available_units := st.available_units + 1 }
            else st }

/-! ## Police fleet registry (`police_tools.py`)

Patrol units carry their own coordinates; the join to `police_stations`
only contributes station metadata.  Dispatching also generates a case
number from the wall clock and a random suffix (`generate_case_number`),
which is abstracted as an explicit argument. -/

/-- A row of the `police_stations` table. -/
structure PoliceStation where
  id : ℕ
  station_name : String
  latitude : ℚ
  longitude : ℚ
deriving DecidableEq, Repr

/-- A row of the `patrol_units` table. -/
structure PatrolUnit where
  id : ℕ
  station_id : ℕ
  unit_code : String
  unit_type : String
  latitude : ℚ
  longitude : ℚ
  status : String
deriving DecidableEq, Repr

/-- A row of the `police_dispatches` table. -/
structure PoliceDispatch where
  id : ℕ
  patrol_unit_id : ℕ
  user_location_lat : ℚ
  user_location_lon : ℚ
  emergency_type : String
  threat_level : String
  case_number : String
  notes : Option String
  status : String
deriving DecidableEq, Repr

/-- The police database. -/
structure PoliceState where
  police_stations : List PoliceStation
  patrol_units : List PatrolUnit
  dispatches : List PoliceDispatch
  next_dispatch_id : ℕ
deriving DecidableEq, Repr

/-- The station row joined to a patrol unit (station id is the primary
key). -/
def policeStationOf (s : PoliceState) (u : PatrolUnit) : Option PoliceStation :=
  s.police_stations.find? (fun st => st.id == u.station_id)

/-- An element of the list returned by `get_nearby_patrol_units`. -/
structure PatrolEntry where
  unit : PatrolUnit
  distance_km : ℚ
  estimated_arrival_minutes : ℤ
deriving DecidableEq, Repr

/-- `get_nearby_patrol_units(user_lat, user_lon, radius_km, unit_type)`:
available (optionally type-filtered) units whose own position is within
`radius_km`, sorted ascending by rounded distance; units whose station id
dangles are dropped by the join. -/
def get_nearby_patrol_units (dist : Dist) (s : PoliceState)
    (user_lat user_lon radius_km : ℚ) (unit_type : Option String) :
    List PatrolEntry :=
  let candidates := s.patrol_units.filterMap fun u =>
    match policeStationOf s u with
    | none => none
    | some _ =>
      if u.status == "available" && optFilterOk unit_type u.unit_type then
        some u
      else none
  let nearby := candidates.filterMap fun u =>
    let d := dist user_lat user_lon u.latitude u.longitude
    if d ≤ radius_km then
      some ⟨u, round2 d, estimate_arrival_time d 45⟩
    else none
  sortByDist PatrolEntry.distance_km nearby

/-- `dispatch_patrol_unit`: look the unit (joined to its station) up by
id, fail if the join is empty or the unit is not available, otherwise mark
it dispatched and insert one dispatch record with status `dispatched` and
the generated case number. -/
def dispatch_patrol_unit (s : PoliceState) (patrol_unit_id : ℕ)
    (user_lat user_lon : ℚ) (emergency_type threat_level case_number : String)
    (notes : Option String) : OpResult PoliceState :=
  match s.patrol_units.find? (fun u => u.id == patrol_unit_id) with
  | none => .failed "Patrol unit not found"
  | some unit =>
    match policeStationOf s unit with
    | none => .failed "Patrol unit not found"
    | some _ =>
      if unit.status ≠ "available" then
        .failed ("Patrol unit is currently " ++ unit.status)
      else
        .ok s.next_dispatch_id
          { s with
            patrol_units := s.patrol_units.map fun u =>
              if u.id == patrol_unit_id then { u with status := "dispatched" }
              else u
            dispatches := s.dispatches ++
              [⟨s.next_dispatch_id, patrol_unit_id, user_lat, user_lon,
                emergency_type, threat_level, case_number, notes,
                "dispatched"⟩]
            next_dispatch_id := s.next_dispatch_id + 1 }

/-- `dispatch_nearest_patrol_unit`: nearby search with `radius_km=20`
(filtered to rapid-response units when requested, falling back to any unit
when the filtered search is empty), then dispatch the first hit; no-unit
failure suggests calling 100. -/
def dispatch_nearest_patrol_unit (dist : Dist) (s : PoliceState)
    (user_lat user_lon : ℚ) (emergency_type threat_level : String)
    (require_rapid_response : Bool) (case_number : String)
    (notes : Option String) : OpResult PoliceState :=
  let unit_type : Option String :=
    if require_rapid_response then some "rapid_response" else none
  let result := get_nearby_patrol_units dist s user_lat user_lon 20 unit_type
  let result :=
    if result.isEmpty && require_rapid_response then
      get_nearby_patrol_units dist s user_lat user_lon 20 none
    else result
  match result with
  | [] => .failed_suggest "No available patrol units found nearby"
      "Call emergency services directly at 100"
  | e :: _ =>
    dispatch_patrol_unit s e.unit.id user_lat user_lon emergency_type
      threat_level case_number notes

/-- `complete_police_dispatch`: look the dispatch up by id, fail if
absent, otherwise mark it `resolved` and set the referenced unit back to
`available`.  The source never checks whether the dispatch is already
resolved. -/
def complete_police_dispatch (s : PoliceState) (dispatch_id : ℕ)
    (notes : Option String) : OpResult PoliceState :=
  match s.dispatches.find? (fun d => d.id == dispatch_id) with
  | none => .failed "Dispatch not found"
  | some dispatch =>
    .ok dispatch_id
      { s with
        dispatches := s.dispatches.map fun d =>
          if d.id == dispatch_id then
            { d with status := "resolved", notes := notes }
          else d
        patrol_units := s.patrol_units.map fun u =>
          if u.id == dispatch.patrol_unit_id then { u with status := "available" }
          else u }

/-! ## Severity/threat assessment engines -/

/-- The fixed critical-symptom keyword list of `assess_ambulance_need`. -/
def critical_symptoms : List String :=
  ["chest pain", "heart attack", "stroke", "severe bleeding",
   "not breathing", "unconscious", "seizure", "severe burn",
   "head injury", "spinal injury", "drowning", "poisoning"]

/-- The fixed moderate-symptom keyword list of `assess_ambulance_need`. -/
def moderate_symptoms : List String :=
  ["broken bone", "fracture", "deep cut", "difficulty breathing",
   "allergic reaction", "high fever", "severe pain", "fainting"]

/-- The outcome of `assess_ambulance_need` (urgency tier and recommended
ambulance type; the remaining payload echoes the inputs). -/
structure AmbulanceAssessment where
  urgency_level : String
  recommended_ambulance_type : String
deriving DecidableEq, Repr

/-- Python `any(kw in ' '.join(lowered symptoms) for kw in kws)`. -/
def symptomMatch (kws : List String) (symptoms : List String) : Bool :=
  kws.any fun kw => strIn kw (joinSpace (symptoms.map lowerStr))

/-- `assess_ambulance_need(symptoms, patient_count, patient_conscious,
patient_breathing)`: first matching rule wins — not breathing or
unconscious or a critical keyword gives CRITICAL/icu; a moderate keyword
or more than two patients gives HIGH/advanced; otherwise MODERATE/basic. -/
def assess_ambulance_need (symptoms : List String) (patient_count : ℤ)
    (patient_conscious patient_breathing : Bool) : AmbulanceAssessment :=
  let has_critical := symptomMatch critical_symptoms symptoms
  let has_moderate := symptomMatch moderate_symptoms symptoms
  if !patient_breathing || !patient_conscious || has_critical then
    ⟨"CRITICAL", "icu"⟩
  else if has_moderate || patient_count > 2 then
    ⟨"HIGH", "advanced"⟩
  else
    ⟨"MODERATE", "basic"⟩

/-- The building types that add fire risk in `assess_fire_severity`. -/
def high_risk_buildings : List String := ["industrial", "commercial", "forest"]

/-- The additive `severity_score` of `assess_fire_severity`. -/
def fire_severity_score (smoke_visible flames_visible : Bool)
    (building_type : String) (people_trapped floor_count : ℤ)
    (spread_rate : String) : ℤ :=
  (if smoke_visible then 1 else 0) +
  (if flames_visible then 2 else 0) +
  (if people_trapped > 0 then 3 else 0) +
  (if people_trapped > 5 then 2 else 0) +
  (if high_risk_buildings.contains (lowerStr building_type) then 2 else 0) +
  (if floor_count > 3 then 2 else if floor_count > 1 then 1 else 0) +
  (if spread_rate = "fast" then 3 else if spread_rate = "moderate" then 1 else 0)

/-- The outcome of `assess_fire_severity` (tier, score, recommended unit
count; truck types and instructions are static per tier). -/
structure FireAssessment where
  severity_level : String
  severity_score : ℤ
  units_recommended : ℤ
deriving DecidableEq, Repr

/-- `assess_fire_severity`: additive score, then tier thresholds
8 / 5 / 3. -/
def assess_fire_severity (smoke_visible flames_visible : Bool)
    (building_type : String) (people_trapped floor_count : ℤ)
    (spread_rate : String) : FireAssessment :=
  let severity_score := fire_severity_score smoke_visible flames_visible
    building_type people_trapped floor_count spread_rate
  if severity_score ≥ 8 then ⟨"CRITICAL", severity_score, 4⟩
  else if severity_score ≥ 5 then ⟨"HIGH", severity_score, 2⟩
  else if severity_score ≥ 3 then ⟨"MEDIUM", severity_score, 1⟩
  else ⟨"LOW", severity_score, 1⟩

/-- The per-subtype base scores of `assess_threat_level`
(`type_scores.get(emergency_type.lower(), 2)`). -/
def type_scores (t : String) : ℤ :=
  if t = "kidnap" then 4
  else if t = "extortion" then 2
  else if t = "robbery" then 3
  else if t = "assault" then 3
  else if t = "threat" then 1
  else if t = "suspicious_activity" then 1
  else 2

/-- The additive `threat_score` of `assess_threat_level`. -/
def police_threat_score (emergency_type : String)
    (weapons_involved hostage_situation : Bool)
    (suspect_count victim_count : ℤ)
    (suspect_present violence_occurred : Bool) : ℤ :=
  type_scores (lowerStr emergency_type) +
  (if weapons_involved then 4 else 0) +
  (if hostage_situation then 5 else 0) +
  (if suspect_present then 2 else 0) +
  (if violence_occurred then 3 else 0) +
  (if suspect_count > 2 then 2 else 0) +
  (if victim_count > 1 then 1 else 0)

/-- The outcome of `assess_threat_level` (tier, score, recommended unit
count, rapid-response flag; instructions are static per tier). -/
structure ThreatAssessment where
  threat_level : String
  threat_score : ℤ
  units_recommended : ℤ
  require_rapid_response : Bool
deriving DecidableEq, Repr

/-- `assess_threat_level`: additive score, then tier thresholds
10 / 7 / 4; rapid response is required for the top two tiers. -/
def assess_threat_level (emergency_type : String)
    (weapons_involved hostage_situation : Bool)
    (suspect_count victim_count : ℤ)
    (suspect_present violence_occurred : Bool) : ThreatAssessment :=
  let threat_score := police_threat_score emergency_type weapons_involved
    hostage_situation suspect_count victim_count suspect_present
    violence_occurred
  if threat_score ≥ 10 then ⟨"CRITICAL", threat_score, 4, true⟩
  else if threat_score ≥ 7 then ⟨"HIGH", threat_score, 2, true⟩
  else if threat_score ≥ 4 then ⟨"MEDIUM", threat_score, 1, false⟩
  else ⟨"LOW", threat_score, 1, false⟩

/-- Ordinal position of an assessment tier (`MODERATE` is the medical
bottom-but-one tier, `MEDIUM` its fire/police counterpart). -/
def tierRank : String → ℕ
  | "CRITICAL" => 3
  | "HIGH" => 2
  | "MEDIUM" => 1
  | "MODERATE" => 1
  | _ => 0

/-! ## Conversation state (`state_manager.py`) and orchestrator folding
(`orchestrator.py._process_tool_result`) -/

/-- `EmergencyType` enum. -/
inductive EmergencyType where
  | unknown
  | medical
  | fire
  | police
deriving DecidableEq, Repr

/-- `ConversationPhase` enum. -/
inductive ConversationPhase where
  | initial
  | gathering_info
  | assessing
  | dispatching
  | providing_guidance
  | monitoring
  | resolved
deriving DecidableEq, Repr

/-- `phase_order.index`, the strict order of phases in
`_advance_phase_if_needed`. -/
def phaseIndex : ConversationPhase → ℕ
  | .initial => 0
  | .gathering_info => 1
  | .assessing => 2
  | .dispatching => 3
  | .providing_guidance => 4
  | .monitoring => 5
  | .resolved => 6

/-- `LocationInfo` (the fields the orchestrator writes). -/
structure LocationInfo where
  latitude : Option ℚ := none
  longitude : Option ℚ := none
  address : Option String := none
  obtained_from : Option String := none
  confidence : String := "unknown"
deriving DecidableEq, Repr

/-- `MedicalInfo`. -/
structure MedicalInfo where
  patient_count : ℤ := 0
  symptoms : List String := []
  patient_conscious : Option Bool := none
  patient_breathing : Option Bool := none
  severity_level : Option String := none
  ambulance_type_needed : Option String := none
  additional_notes : String := ""
deriving DecidableEq, Repr

/-- `FireInfo`. -/
structure FireInfo where
  smoke_visible : Option Bool := none
  flames_visible : Option Bool := none
  building_type : Option String := none
  people_trapped : ℤ := 0
  floor_count : ℤ := 1
  spread_rate : String := "unknown"
  severity_level : Option String := none
  units_recommended : ℤ := 1
  additional_notes : String := ""
deriving DecidableEq, Repr

/-- `PoliceInfo`. -/
structure PoliceInfo where
  emergency_subtype : Option String := none
  weapons_involved : Option Bool := none
  hostage_situation : Option Bool := none
  suspect_count : ℤ := 0
  victim_count : ℤ := 1
  suspect_present : Option Bool := none
  violence_occurred : Option Bool := none
  victim_safe : Option Bool := none
  threat_level : Option String := none
  case_number : Option String := none
  additional_notes : String := ""
deriving DecidableEq, Repr

/-- `DispatchInfo`, the session-side record of one dispatch. -/
structure DispatchInfo where
  dispatch_id : Option ℕ := none
  service_type : Option String := none
  unit_identifier : Option String := none
  eta_minutes : Option ℤ := none
  status : String := "pending"
deriving DecidableEq, Repr

/-- `ConversationState`: the per-session mutable record (timestamps and
raw message history omitted; they carry no dispatch-core state). -/
structure ConversationState where
  phase : ConversationPhase := .initial
  emergency_type : EmergencyType := .unknown
  location : LocationInfo := {}
  medical_info : MedicalInfo := {}
  fire_info : FireInfo := {}
  police_info : PoliceInfo := {}
  dispatches : List DispatchInfo := []
  active_dispatch : Option DispatchInfo := none
  location_requested : Bool := false
  emergency_services_dispatched : Bool := false
  safety_instructions_given : Bool := false
deriving DecidableEq, Repr

/-- `ConversationState.set_emergency_type`: unconditionally overwrite the
type; hop `INITIAL → GATHERING_INFO` only from `INITIAL`. -/
def set_emergency_type (s : ConversationState) (t : EmergencyType) :
    ConversationState :=
  { s with
    emergency_type := t
    phase := if s.phase = .initial then .gathering_info else s.phase }

/-- `ConversationState.set_location`. -/
def set_location (s : ConversationState) (lat lon : ℚ) (source : String)
    (address : Option String) : ConversationState :=
  { s with
    location :=
      { latitude := some lat
        longitude := some lon
        address := address
        obtained_from := some source
        confidence := if source = "device" then "high" else "medium" } }

/-- The fields `_process_tool_result` reads out of a tool's result
dictionary (each `result.get(...)` access becomes an optional field;
absent keys are `none`).  `success` is the `result.get("success", False)`
gate. -/
structure ToolResultData where
  success : Bool := false
  emergency_type : Option String := none
  location_latitude : Option ℚ := none
  location_longitude : Option ℚ := none
  location_address : Option String := none
  update_patient_count : Option ℤ := none
  update_symptoms : Option (List String) := none
  update_patient_conscious : Option Bool := none
  update_patient_breathing : Option Bool := none
  update_smoke_visible : Option Bool := none
  update_flames_visible : Option Bool := none
  update_building_type : Option String := none
  update_people_trapped : Option ℤ := none
  update_floor_count : Option ℤ := none
  update_emergency_subtype : Option String := none
  update_weapons_involved : Option Bool := none
  update_hostage_situation : Option Bool := none
  update_suspect_count : Option ℤ := none
  update_victim_count : Option ℤ := none
  update_suspect_present : Option Bool := none
  update_victim_safe : Option Bool := none
  update_notes : Option String := none
  assessment_urgency_level : Option String := none
  assessment_recommended_ambulance_type : Option String := none
  assessment_severity_level : Option String := none
  assessment_units_recommended : Option ℤ := none
  assessment_threat_level : Option String := none
  dispatch_id : Option ℕ := none
  ambulance_vehicle_number : Option String := none
  fire_truck_vehicle_number : Option String := none
  patrol_unit_code : Option String := none
  estimated_arrival_minutes : Option ℤ := none
  case_number : Option String := none
deriving DecidableEq, Repr

/-- Python truthiness of an optional float (`None` and `0.0` are falsy). -/
def pyTruthyQ : Option ℚ → Bool
  | some q => q != 0
  | none => false

/-- Python truthiness of an optional string. -/
def pyTruthyS : Option String → Bool
  | some s => s != ""
  | none => false

/-- `ConversationState.add_dispatch`: append the session-side dispatch
record, make it active, set the dispatched flag, and move
`GATHERING_INFO`/`ASSESSING` to `DISPATCHING`. -/
def add_dispatch (s : ConversationState) (r : ToolResultData)
    (service_type : String) : ConversationState :=
  let d : DispatchInfo :=
    { dispatch_id := r.dispatch_id
      service_type := some service_type
      unit_identifier :=
        pyOr (pyOr r.ambulance_vehicle_number r.fire_truck_vehicle_number)
          r.patrol_unit_code
      eta_minutes := r.estimated_arrival_minutes
      status := "dispatched" }
  { s with
    dispatches := s.dispatches ++ [d]
    active_dispatch := some d
    emergency_services_dispatched := true
    phase :=
      if s.phase = .gathering_info ∨ s.phase = .assessing then .dispatching
      else s.phase }

/-- `_advance_phase_if_needed`: move to `target` only if it is strictly
later in the phase order. -/
def advance_phase_if_needed (s : ConversationState)
    (target : ConversationPhase) : ConversationState :=
  if phaseIndex s.phase < phaseIndex target then { s with phase := target }
  else s

/-- The orchestrator's `classify_emergency` string-to-enum map. -/
def emergencyTypeOf (t : String) : Option EmergencyType :=
  if t = "medical" then some .medical
  else if t = "fire" then some .fire
  else if t = "police" then some .police
  else none

/-- The `set_user_location` / `lookup_location_by_area` folding branch:
write the location only when both coordinates are present and truthy. -/
def fold_location (s : ConversationState) (r : ToolResultData)
    (source : String) : ConversationState :=
  if pyTruthyQ r.location_latitude && pyTruthyQ r.location_longitude then
    set_location s (r.location_latitude.getD 0) (r.location_longitude.getD 0)
      source r.location_address
  else s

/-- The `update_medical_info` folding branch: merge present fields. -/
def fold_medical_update (m : MedicalInfo) (r : ToolResultData) : MedicalInfo :=
  { m with
    patient_count := r.update_patient_count.getD m.patient_count
    symptoms := r.update_symptoms.getD m.symptoms
    patient_conscious :=
      match r.update_patient_conscious with
      | some b => some b
      | none => m.patient_conscious
    patient_breathing :=
      match r.update_patient_breathing with
      | some b => some b
      | none => m.patient_breathing
    additional_notes := r.update_notes.getD m.additional_notes }

/-- The `update_fire_info` folding branch. -/
def fold_fire_update (f : FireInfo) (r : ToolResultData) : FireInfo :=
  { f with
    smoke_visible :=
      match r.update_smoke_visible with
      | some b => some b
      | none => f.smoke_visible
    flames_visible :=
      match r.update_flames_visible with
      | some b => some b
      | none => f.flames_visible
    building_type :=
      match r.update_building_type with
      | some b => some b
      | none => f.building_type
    people_trapped := r.update_people_trapped.getD f.people_trapped
    floor_count := r.update_floor_count.getD f.floor_count
    additional_notes := r.update_notes.getD f.additional_notes }

/-- The `update_police_info` folding branch. -/
def fold_police_update (p : PoliceInfo) (r : ToolResultData) : PoliceInfo :=
  { p with
    emergency_subtype :=
      match r.update_emergency_subtype with
      | some v => some v
      | none => p.emergency_subtype
    weapons_involved :=
      match r.update_weapons_involved with
      | some b => some b
      | none => p.weapons_involved
    hostage_situation :=
      match r.update_hostage_situation with
      | some b => some b
      | none => p.hostage_situation
    suspect_count := r.update_suspect_count.getD p.suspect_count
    victim_count := r.update_victim_count.getD p.victim_count
    suspect_present :=
      match r.update_suspect_present with
      | some b => some b
      | none => p.suspect_present
    victim_safe :=
      match r.update_victim_safe with
      | some b => some b
      | none => p.victim_safe
    additional_notes := r.update_notes.getD p.additional_notes }

/-- `EmergencyOrchestrator._process_tool_result`: fold one tool result
into the session state, dispatching on the tool's name exactly as the
source's `if`/`elif` chain does (including the substring tests
`"assess" in tool_name` and `"dispatch" in tool_name`). -/
def process_tool_result (s : ConversationState) (tool_name : String)
    (r : ToolResultData) : ConversationState :=
  if !r.success then s
  else if tool_name = "classify_emergency" then
    match emergencyTypeOf (lowerStr (r.emergency_type.getD "")) with
    | some t => set_emergency_type s t
    | none => s
  else if tool_name = "set_user_location" then fold_location s r "llm_tool"
  else if tool_name = "lookup_location_by_area" then
    fold_location s r "area_lookup"
  else if tool_name = "update_medical_info" then
    { s with medical_info := fold_medical_update s.medical_info r }
  else if tool_name = "update_fire_info" then
    { s with fire_info := fold_fire_update s.fire_info r }
  else if tool_name = "update_police_info" then
    { s with police_info := fold_police_update s.police_info r }
  else if strIn "assess" tool_name then
    if tool_name = "assess_ambulance_need" then
      advance_phase_if_needed
        { s with medical_info :=
            { s.medical_info with
              severity_level := r.assessment_urgency_level
              ambulance_type_needed :=
                r.assessment_recommended_ambulance_type } }
        .assessing
    else if tool_name = "assess_fire_severity" then
      advance_phase_if_needed
        { s with fire_info :=
            { s.fire_info with
              severity_level := r.assessment_severity_level
              units_recommended := r.assessment_units_recommended.getD 1 } }
        .assessing
    else if tool_name = "assess_threat_level" then
      advance_phase_if_needed
        { s with police_info :=
            { s.police_info with threat_level := r.assessment_threat_level } }
        .assessing
    else s
  else if strIn "dispatch" tool_name then
    let s1 :=
      if tool_name = "dispatch_nearest_ambulance" ∨
         tool_name = "dispatch_ambulance" then
        add_dispatch s r "ambulance"
      else if tool_name = "dispatch_nearest_fire_truck" ∨
              tool_name = "dispatch_fire_truck" ∨
              tool_name = "dispatch_multiple_fire_units" then
        add_dispatch s r "fire"
      else if tool_name = "dispatch_nearest_patrol_unit" ∨
              tool_name = "dispatch_patrol_unit" ∨
              tool_name = "dispatch_multiple_police_units" then
        let s2 := add_dispatch s r "police"
        if pyTruthyS r.case_number then
          { s2 with police_info :=
              { s2.police_info with case_number := r.case_number } }
        else s2
      else s
    advance_phase_if_needed s1 .providing_guidance
  else if tool_name = "create_case" then
    { s with police_info := { s.police_info with case_number := r.case_number } }
  else s

/-! ## Helper lemmas -/

/-- Filtering before a `filterMap` is a `filterMap` with a guarded
function. -/
lemma filter_then_filterMap {α β : Type} (p : α → Bool) (f : α → Option β)
    (l : List α) :
    (l.filter p).filterMap f = l.filterMap fun a => if p a then f a else none := by
  induction l with
  | nil => rfl
  | cons x xs ih =>
    by_cases hx : p x
    · cases hfx : f x <;>
        simp [List.filter_cons, List.filterMap_cons, hx, hfx, ih]
    · simp [List.filter_cons, List.filterMap_cons, hx, ih]

/-- Projecting a `filterMap` back onto its source turns it into a
`filter`, provided the function is a guarded enrichment. -/
lemma map_filterMap_eq_filter {α β : Type} (f : α → Option β) (g : β → α)
    (p : α → Bool) (h : ∀ a, (f a).map g = if p a then some a else none)
    (l : List α) : (l.filterMap f).map g = l.filter p := by
  induction l with
  | nil => rfl
  | cons x xs ih =>
    have hx := h x
    cases hfx : f x with
    | none =>
      rw [hfx] at hx
      by_cases hp : p x
      · simp [hp] at hx
      · simp [List.filterMap_cons, hfx, List.filter_cons, hp, ih]
    | some b =>
      rw [hfx] at hx
      by_cases hp : p x
      · simp only [hp, if_true, Option.map_some'] at hx
        simp only [List.filterMap_cons, hfx, List.map_cons, ih,
          List.filter_cons, hp, if_true]
        rw [Option.some.injEq] at hx
        rw [hx]
      · simp [hp] at hx

/-- A run that leads a list still leads it after an extension. -/
lemma charsLead_append {n h : List Char} (t : List Char)
    (hn : charsLead n h = true) : charsLead n (h ++ t) = true := by
  induction n generalizing h with
  | nil => rfl
  | cons a as ih =>
    cases h with
    | nil => simp [charsLead] at hn
    | cons b bs =>
      simp only [charsLead, Bool.and_eq_true] at hn
      simpa [charsLead, hn.1] using ih hn.2

/-- A substring occurrence survives extending the haystack on the right. -/
lemma charsHave_append {h n : List Char} (t : List Char)
    (hn : charsHave h n = true) : charsHave (h ++ t) n = true := by
  induction h with
  | nil =>
    have : charsLead n [] = true := hn
    cases n with
    | nil =>
      cases t with
      | nil => rfl
      | cons c cs => simp [charsHave, charsLead]
    | cons a as => simp [charsLead] at this
  | cons c cs ih =>
    simp only [charsHave, Bool.or_eq_true] at hn
    rcases hn with hn | hn
    · simp only [List.cons_append, charsHave, Bool.or_eq_true]
      exact Or.inl (charsLead_append t hn)
    · simp only [List.cons_append, charsHave, Bool.or_eq_true]
      exact Or.inr (ih hn)

/-- Python `needle in hay` survives appending to the haystack. -/
lemma strIn_append {n a : String} (b : String) (hn : strIn n a = true) :
    strIn n (a ++ b) = true := by
  have : (a ++ b).data = a.data ++ b.data := String.data_append a b
  unfold strIn at hn ⊢
  rw [this]
  exact charsHave_append b.data hn

/-- An empty needle occurs in every haystack. -/
lemma charsHave_empty_needle (h : List Char) : charsHave h [] = true := by
  cases h <;> simp [charsHave, charsLead]

/-- `' '.join` of an extended list extends the joined text on the right
(when the original list is nonempty). -/
lemma joinSpace_append_single (l : List String) (x : String) (hl : l ≠ []) :
    joinSpace (l ++ [x]) = joinSpace l ++ (" " ++ x) := by
  induction l with
  | nil => exact absurd rfl hl
  | cons s rest ih =>
    cases rest with
    | nil =>
      simp only [List.cons_append, List.nil_append, joinSpace]
      rw [String.append_assoc]
    | cons s2 rest2 =>
      have h2 := ih (by simp)
      have e1 : (s :: s2 :: rest2) ++ [x] = s :: ((s2 :: rest2) ++ [x]) := rfl
      have e2 : joinSpace (s :: ((s2 :: rest2) ++ [x])) =
          s ++ " " ++ joinSpace ((s2 :: rest2) ++ [x]) := rfl
      have e3 : joinSpace (s :: s2 :: rest2) =
          s ++ " " ++ joinSpace (s2 :: rest2) := rfl
      rw [e1, e2, h2, e3]
      simp only [String.append_assoc]

/-- Appending a symptom can only add keyword matches. -/
lemma symptomMatch_append (kws l : List String) (x : String)
    (h : symptomMatch kws l = true) : symptomMatch kws (l ++ [x]) = true := by
  unfold symptomMatch at h ⊢
  rw [List.any_eq_true] at h ⊢
  rcases h with ⟨kw, hkw, hin⟩
  refine ⟨kw, hkw, ?_⟩
  cases l with
  | nil =>
    have hne : kw.data = [] := by
      have hl : charsLead kw.data [] = true := hin
      cases hkw2 : kw.data with
      | nil => rfl
      | cons a as => rw [hkw2] at hl; simp [charsLead] at hl
    unfold strIn
    rw [hne]
    exact charsHave_empty_needle _
  | cons s rest =>
    rw [List.map_append] at *
    simp only [List.map_cons, List.map_nil] at *
    rw [joinSpace_append_single _ _ (by simp)]
    exact strIn_append _ hin

/-! ## Concrete fixtures for counterexamples and witnesses -/

/-- Distance function used by the concrete fixtures: the reported
distance is the unit's latitude.  (All universally quantified theorems
hold for every `Dist`; a projection keeps kernel evaluation trivial.) -/
def demoDist : Dist := fun _ _ la _ => la

/-- One available ambulance, 25 km out under `demoDist`. -/
def demoAmb : Ambulance :=
  ⟨1, "KA-01-AM-1001", "Central", 25, 0, "available", "basic"⟩

/-- Ambulance database with the single unit `demoAmb`. -/
def demoAmbState : AmbulanceState := ⟨[demoAmb], [], 1⟩

/-- One fire station with one of one unit available. -/
def demoFireStation : FireStation := ⟨1, "Station-1", 3, 0, 1, 1⟩

/-- The station's single available truck. -/
def demoFireTruck : FireTruck := ⟨1, 1, "FT-01", "water_tender", "available"⟩

/-- Fire database: one station, one available truck, counters
consistent (`available_units = 1 = total_units`, the truck available). -/
def demoFireState : FireState := ⟨[demoFireStation], [demoFireTruck], [], 1⟩

/-- One police station at the origin. -/
def demoPoliceStation : PoliceStation := ⟨1, "PS-1", 0, 0⟩

/-- One available patrol unit, 25 km out under `demoDist`. -/
def demoPatrolUnit : PatrolUnit := ⟨1, 1, "U-01", "patrol", 25, 0, "available"⟩

/-- Police database with the single unit `demoPatrolUnit`. -/
def demoPoliceState : PoliceState := ⟨[demoPoliceStation], [demoPatrolUnit], [], 1⟩

/-! ## Claim C7 -/

/-- **C7 (counterexample).** The claim predicts `threat_score = 15`
(`4+4+5+2`) for the kidnap scenario, but `suspect_count = 2` does not pass
the code's strict `suspect_count > 2` test, so the score is `13`, not
`15`. -/
theorem kidnap_scenario_score_not_15 :
    (assess_threat_level "kidnap" true true 2 1 false false).threat_score = 13 ∧
    ¬ (assess_threat_level "kidnap" true true 2 1 false false).threat_score = 15 := by
  decide

/-- **C7 (amended).** `assess_threat_level` with
`emergency_type="kidnap"`, `weapons_involved=true`,
`hostage_situation=true`, `suspect_count=2` (other factors default)
returns `threat_score = 13` (computed as `4+4+5`; two suspects do not
exceed the `> 2` threshold), `threat_level = CRITICAL`, and
`require_rapid_response = true`. -/
theorem kidnap_scenario_assessment :
    assess_threat_level "kidnap" true true 2 1 false false =
      ⟨"CRITICAL", 4 + 4 + 5, 4, true⟩ := by
  decide

/-! ## Claim C8 -/

/-- **C8.** `assess_ambulance_need` yields tier `CRITICAL` with type
`icu` exactly when the patient is not breathing, or not conscious, or
some fixed critical keyword occurs (case-insensitively) as a substring of
the space-joined symptom text; in particular `symptoms=["chest pain"]`
with `conscious=true`, `breathing=true` yields `CRITICAL`/`icu`. -/
theorem ambulance_critical_iff :
    (∀ (symptoms : List String) (patient_count : ℤ)
        (patient_conscious patient_breathing : Bool),
      ((assess_ambulance_need symptoms patient_count patient_conscious
          patient_breathing).urgency_level = "CRITICAL" ∧
       (assess_ambulance_need symptoms patient_count patient_conscious
          patient_breathing).recommended_ambulance_type = "icu") ↔
      (patient_breathing = false ∨ patient_conscious = false ∨
       ∃ kw ∈ critical_symptoms,
         strIn kw (joinSpace (symptoms.map lowerStr)) = true)) ∧
    assess_ambulance_need ["chest pain"] 1 true true = ⟨"CRITICAL", "icu"⟩ := by
  constructor
  · intro symptoms pc c b
    have hcrit : symptomMatch critical_symptoms symptoms = true ↔
        ∃ kw ∈ critical_symptoms,
          strIn kw (joinSpace (symptoms.map lowerStr)) = true := by
      unfold symptomMatch
      exact List.any_eq_true
    rw [← hcrit]
    unfold assess_ambulance_need
    cases b <;> cases c <;>
      by_cases h : symptomMatch critical_symptoms symptoms = true <;>
        simp only [h, Bool.not_true, Bool.not_false, Bool.false_or,
          Bool.true_or, Bool.or_true, Bool.or_false, if_true, if_false,
          Bool.true_eq_false, Bool.false_eq_true] <;>
      first
        | (split <;> simp_all)
        | simp
  · decide

/-! ## Claim C2 -/

/-- **C2 (code bug).** The claim (and spec §8) requires the second
`complete` on an already-resolved dispatch to fail with
NotFound-or-InvalidState.  None of the three `complete_*` functions ever
inspects the dispatch's status: as long as the row exists the call
succeeds again.  Concretely, in each category a unit is dispatched,
the dispatch completed, and the *second* completion still reports
success. -/
theorem complete_twice_second_call_succeeds :
    (let s1 := (dispatch_ambulance demoAmbState 1 0 0 "cardiac" 1
        none).stateD demoAmbState
     let s2 := (complete_dispatch s1 1 none).stateD s1
     (dispatch_ambulance demoAmbState 1 0 0 "cardiac" 1 none).isOk = true ∧
     (complete_dispatch s1 1 none).isOk = true ∧
     (s2.dispatches.map AmbulanceDispatch.status = ["completed"]) ∧
     (complete_dispatch s2 1 none).isOk = true) ∧
    (let s1 := (dispatch_fire_truck demoFireState 1 0 0 "building" "high" 0
        none).stateD demoFireState
     let s2 := (complete_fire_dispatch s1 1 none).stateD s1
     (dispatch_fire_truck demoFireState 1 0 0 "building" "high" 0
        none).isOk = true ∧
     (complete_fire_dispatch s1 1 none).isOk = true ∧
     (s2.dispatches.map FireDispatch.status = ["resolved"]) ∧
     (complete_fire_dispatch s2 1 none).isOk = true) ∧
    (let s1 := (dispatch_patrol_unit demoPoliceState 1 0 0 "robbery"
        "medium" "CASE-1" none).stateD demoPoliceState
     let s2 := (complete_police_dispatch s1 1 none).stateD s1
     (dispatch_patrol_unit demoPoliceState 1 0 0 "robbery" "medium"
        "CASE-1" none).isOk = true ∧
     (complete_police_dispatch s1 1 none).isOk = true ∧
     (s2.dispatches.map PoliceDispatch.status = ["resolved"]) ∧
     (complete_police_dispatch s2 1 none).isOk = true) := by
  decide

/-! ## Claim C3 -/

/-- **C3 (code bug).** The claim (spec's station-counter invariant,
`0 ≤ available_units ≤ total_units`) is broken by the fleet operations
themselves: starting from a consistent seeded state (one station, one
available truck, counter 1 of 1), the sequence dispatch → complete →
complete (the second complete succeeds, see C2) drives the station
counter to 2 > `total_units` = 1, because `complete_fire_dispatch`
increments the counter unconditionally. -/
theorem fire_station_counter_exceeds_total :
    (demoFireState.fire_stations.map FireStation.available_units = [1] ∧
     demoFireState.fire_stations.map FireStation.total_units = [1] ∧
     demoFireState.fire_trucks.map FireTruck.status = ["available"]) ∧
    (let s1 := (dispatch_fire_truck demoFireState 1 0 0 "building" "high" 0
        none).stateD demoFireState
     let s2 := (complete_fire_dispatch s1 1 none).stateD s1
     let s3 := (complete_fire_dispatch s2 1 none).stateD s2
     (dispatch_fire_truck demoFireState 1 0 0 "building" "high" 0
        none).isOk = true ∧
     (complete_fire_dispatch s1 1 none).isOk = true ∧
     (complete_fire_dispatch s2 1 none).isOk = true ∧
     s1.fire_stations.map FireStation.available_units = [0] ∧
     s2.fire_stations.map FireStation.available_units = [1] ∧
     s3.fire_stations.map FireStation.available_units = [2] ∧
     ¬ ∀ st ∈ s3.fire_stations,
        0 ≤ st.available_units ∧ st.available_units ≤ st.total_units) := by
  decide

/-! ## Phase / emergency-type preservation lemmas -/

lemma set_emergency_type_phase_le (s : ConversationState) (t : EmergencyType) :
    phaseIndex s.phase ≤ phaseIndex (set_emergency_type s t).phase := by
  unfold set_emergency_type
  by_cases h : s.phase = .initial <;> simp [h, phaseIndex]

lemma add_dispatch_phase_le (s : ConversationState) (r : ToolResultData)
    (st : String) : phaseIndex s.phase ≤ phaseIndex (add_dispatch s r st).phase := by
  unfold add_dispatch
  by_cases h : s.phase = .gathering_info ∨ s.phase = .assessing
  · rcases h with h | h <;> simp [h, phaseIndex]
  · simp [h]

lemma advance_phase_if_needed_phase_le (s : ConversationState)
    (t : ConversationPhase) :
    phaseIndex s.phase ≤ phaseIndex (advance_phase_if_needed s t).phase := by
  unfold advance_phase_if_needed
  by_cases h : phaseIndex s.phase < phaseIndex t
  · simpa [h] using le_of_lt h
  · simp [h]

lemma fold_location_phase (s : ConversationState) (r : ToolResultData)
    (src : String) : (fold_location s r src).phase = s.phase := by
  unfold fold_location set_location
  split <;> rfl

lemma fold_location_emergency_type (s : ConversationState) (r : ToolResultData)
    (src : String) : (fold_location s r src).emergency_type = s.emergency_type := by
  unfold fold_location set_location
  split <;> rfl

lemma add_dispatch_emergency_type (s : ConversationState) (r : ToolResultData)
    (st : String) : (add_dispatch s r st).emergency_type = s.emergency_type := rfl

lemma advance_phase_if_needed_emergency_type (s : ConversationState)
    (t : ConversationPhase) :
    (advance_phase_if_needed s t).emergency_type = s.emergency_type := by
  unfold advance_phase_if_needed
  split <;> rfl

/-! ## Claim C5 -/

/-- **C5.** The conversation phase never moves backward under the
orchestrator's tool-result folding: a single folded tool result, and
hence any folded sequence of tool results, leaves the phase index (in the
order INITIAL, GATHERING_INFO, ASSESSING, DISPATCHING,
PROVIDING_GUIDANCE, MONITORING, RESOLVED) at least where it was. -/
theorem phase_monotone :
    (∀ (s : ConversationState) (tool_name : String) (r : ToolResultData),
      phaseIndex s.phase ≤ phaseIndex (process_tool_result s tool_name r).phase) ∧
    (∀ (s : ConversationState) (results : List (String × ToolResultData)),
      phaseIndex s.phase ≤ phaseIndex
        ((results.foldl (fun st p => process_tool_result st p.1 p.2) s).phase)) := by
  have step : ∀ (s : ConversationState) (tool_name : String)
      (r : ToolResultData),
      phaseIndex s.phase ≤ phaseIndex (process_tool_result s tool_name r).phase := by
    intro s name r
    unfold process_tool_result
    by_cases h0 : (!r.success) = true
    · rw [if_pos h0]
    · rw [if_neg h0]
      by_cases h1 : name = "classify_emergency"
      · rw [if_pos h1]
        cases hem : emergencyTypeOf (lowerStr (r.emergency_type.getD "")) with
        | none => exact le_refl _
        | some t => exact set_emergency_type_phase_le s t
      · rw [if_neg h1]
        by_cases h2 : name = "set_user_location"
        · rw [if_pos h2]
          exact le_of_eq (congrArg phaseIndex (fold_location_phase s r _)).symm
        · rw [if_neg h2]
          by_cases h3 : name = "lookup_location_by_area"
          · rw [if_pos h3]
            exact le_of_eq (congrArg phaseIndex (fold_location_phase s r _)).symm
          · rw [if_neg h3]
            by_cases h4 : name = "update_medical_info"
            · rw [if_pos h4]
            · rw [if_neg h4]
              by_cases h5 : name = "update_fire_info"
              · rw [if_pos h5]
              · rw [if_neg h5]
                by_cases h6 : name = "update_police_info"
                · rw [if_pos h6]
                · rw [if_neg h6]
                  by_cases h7 : strIn "assess" name = true
                  · rw [if_pos h7]
                    by_cases h8 : name = "assess_ambulance_need"
                    · rw [if_pos h8]
                      refine le_trans ?_ (advance_phase_if_needed_phase_le _ _)
                      exact le_refl _
                    · rw [if_neg h8]
                      by_cases h9 : name = "assess_fire_severity"
                      · rw [if_pos h9]
                        refine le_trans ?_ (advance_phase_if_needed_phase_le _ _)
                        exact le_refl _
                      · rw [if_neg h9]
                        by_cases h10 : name = "assess_threat_level"
                        · rw [if_pos h10]
                          refine le_trans ?_ (advance_phase_if_needed_phase_le _ _)
                          exact le_refl _
                        · rw [if_neg h10]
                  · rw [if_neg h7]
                    by_cases h11 : strIn "dispatch" name = true
                    · rw [if_pos h11]
                      refine le_trans ?_ (advance_phase_if_needed_phase_le _ _)
                      by_cases h12 : name = "dispatch_nearest_ambulance" ∨
                          name = "dispatch_ambulance"
                      · rw [if_pos h12]
                        exact add_dispatch_phase_le _ _ _
                      · rw [if_neg h12]
                        by_cases h13 : name = "dispatch_nearest_fire_truck" ∨
                            name = "dispatch_fire_truck" ∨
                            name = "dispatch_multiple_fire_units"
                        · rw [if_pos h13]
                          exact add_dispatch_phase_le _ _ _
                        · rw [if_neg h13]
                          by_cases h14 : name = "dispatch_nearest_patrol_unit" ∨
                              name = "dispatch_patrol_unit" ∨
                              name = "dispatch_multiple_police_units"
                          · rw [if_pos h14]
                            by_cases h15 : pyTruthyS r.case_number = true
                            · rw [if_pos h15]
                              exact le_trans (add_dispatch_phase_le s r "police")
                                (le_of_eq rfl)
                            · rw [if_neg h15]
                              exact add_dispatch_phase_le _ _ _
                          · rw [if_neg h14]
                    · rw [if_neg h11]
                      by_cases h16 : name = "create_case"
                      · rw [if_pos h16]
                      · rw [if_neg h16]
  refine ⟨step, ?_⟩
  intro s results
  induction results generalizing s with
  | nil => exact le_refl _
  | cons p rest ih => exact le_trans (step s p.1 p.2) (ih _)

/-! ## Claim C6 -/

/-- The session state after a first successful classification as
`medical`. -/
def classifiedMedical : ConversationState :=
  process_tool_result {} "classify_emergency"
    { success := true, emergency_type := some "medical" }

/-- The same session after folding a second successful
`classify_emergency` result that says `fire`. -/
def reclassifiedFire : ConversationState :=
  process_tool_result classifiedMedical "classify_emergency"
    { success := true, emergency_type := some "fire" }

/-- **C6 (counterexample).** The claim says that once `emergency_type`
is set away from `unknown` no operation changes it, but neither
`ConversationState.set_emergency_type` nor the orchestrator's
`classify_emergency` branch guards against reassignment: a session
classified `medical` is silently re-classified `fire` by a second
successful `classify_emergency` tool result. -/
theorem emergency_type_reclassified :
    classifiedMedical.emergency_type = .medical ∧
    classifiedMedical.emergency_type ≠ .unknown ∧
    reclassifiedFire.emergency_type = .fire ∧
    reclassifiedFire.emergency_type ≠ classifiedMedical.emergency_type := by
  decide

/-- **C6 (amended).** Operations other than `classify_emergency` never
change a session's `emergency_type`; a successful `classify_emergency`
result carrying a valid type overwrites it with that type, regardless of
any previously set value. -/
theorem emergency_type_update_rule :
    (∀ (s : ConversationState) (tool_name : String) (r : ToolResultData),
      tool_name ≠ "classify_emergency" →
      (process_tool_result s tool_name r).emergency_type = s.emergency_type) ∧
    (∀ (s : ConversationState) (r : ToolResultData) (t : EmergencyType),
      r.success = true →
      emergencyTypeOf (lowerStr (r.emergency_type.getD "")) = some t →
      (process_tool_result s "classify_emergency" r).emergency_type = t) := by
  constructor
  · intro s name r hname
    unfold process_tool_result
    by_cases h0 : (!r.success) = true
    · rw [if_pos h0]
    · rw [if_neg h0]
      rw [if_neg hname]
      by_cases h2 : name = "set_user_location"
      · rw [if_pos h2]
        exact fold_location_emergency_type s r _
      · rw [if_neg h2]
        by_cases h3 : name = "lookup_location_by_area"
        · rw [if_pos h3]
          exact fold_location_emergency_type s r _
        · rw [if_neg h3]
          by_cases h4 : name = "update_medical_info"
          · rw [if_pos h4]
          · rw [if_neg h4]
            by_cases h5 : name = "update_fire_info"
            · rw [if_pos h5]
            · rw [if_neg h5]
              by_cases h6 : name = "update_police_info"
              · rw [if_pos h6]
              · rw [if_neg h6]
                by_cases h7 : strIn "assess" name = true
                · rw [if_pos h7]
                  by_cases h8 : name = "assess_ambulance_need"
                  · rw [if_pos h8]
                    exact (advance_phase_if_needed_emergency_type _ _).trans rfl
                  · rw [if_neg h8]
                    by_cases h9 : name = "assess_fire_severity"
                    · rw [if_pos h9]
                      exact (advance_phase_if_needed_emergency_type _ _).trans rfl
                    · rw [if_neg h9]
                      by_cases h10 : name = "assess_threat_level"
                      · rw [if_pos h10]
                        exact (advance_phase_if_needed_emergency_type _ _).trans rfl
                      · rw [if_neg h10]
                · rw [if_neg h7]
                  by_cases h11 : strIn "dispatch" name = true
                  · rw [if_pos h11]
                    refine (advance_phase_if_needed_emergency_type _ _).trans ?_
                    by_cases h12 : name = "dispatch_nearest_ambulance" ∨
                        name = "dispatch_ambulance"
                    · rw [if_pos h12]
                      exact add_dispatch_emergency_type _ _ _
                    · rw [if_neg h12]
                      by_cases h13 : name = "dispatch_nearest_fire_truck" ∨
                          name = "dispatch_fire_truck" ∨
                          name = "dispatch_multiple_fire_units"
                      · rw [if_pos h13]
                        exact add_dispatch_emergency_type _ _ _
                      · rw [if_neg h13]
                        by_cases h14 : name = "dispatch_nearest_patrol_unit" ∨
                            name = "dispatch_patrol_unit" ∨
                            name = "dispatch_multiple_police_units"
                        · rw [if_pos h14]
                          by_cases h15 : pyTruthyS r.case_number = true
                          · rw [if_pos h15]
                            exact rfl
                          · rw [if_neg h15]
                            exact add_dispatch_emergency_type _ _ _
                        · rw [if_neg h14]
                  · rw [if_neg h11]
                    by_cases h16 : name = "create_case"
                    · rw [if_pos h16]
                    · rw [if_neg h16]
  · intro s r t hsucc hem
    unfold process_tool_result
    rw [hsucc]
    rw [if_neg (by simp)]
    rw [if_pos rfl]
    rw [hem]
    rfl

/-- Witness for C6 (amended) at concrete inputs: an `update_fire_info`
result leaves the type unchanged, and a valid `classify_emergency`
result sets it. -/
theorem emergency_type_update_rule_witness :
    (process_tool_result {} "update_fire_info"
      { success := true }).emergency_type = ({} : ConversationState).emergency_type ∧
    (process_tool_result {} "classify_emergency"
      { success := true, emergency_type := some "medical" }).emergency_type = .medical :=
  ⟨emergency_type_update_rule.1 {} "update_fire_info" { success := true }
      (by decide),
   emergency_type_update_rule.2 {} { success := true, emergency_type := some "medical" }
      .medical rfl (by decide)⟩

/-! ## Monotonicity lemmas for the assessment engines (claim C9) -/

/-- The fire tier as a function of the score (thresholds 8 / 5 / 3). -/
def fireRankOfScore (n : ℤ) : ℕ :=
  if n ≥ 8 then 3 else if n ≥ 5 then 2 else if n ≥ 3 then 1 else 0

lemma assess_fire_score_eq (sm fl : Bool) (bt : String) (p f : ℤ)
    (sr : String) :
    (assess_fire_severity sm fl bt p f sr).severity_score =
      fire_severity_score sm fl bt p f sr := by
  simp only [assess_fire_severity]
  split_ifs <;> rfl

lemma assess_fire_rank_eq (sm fl : Bool) (bt : String) (p f : ℤ)
    (sr : String) :
    tierRank (assess_fire_severity sm fl bt p f sr).severity_level =
      fireRankOfScore (fire_severity_score sm fl bt p f sr) := by
  simp only [assess_fire_severity, fireRankOfScore]
  split_ifs <;> rfl

lemma fireRankOfScore_mono {a b : ℤ} (h : a ≤ b) :
    fireRankOfScore a ≤ fireRankOfScore b := by
  unfold fireRankOfScore
  split_ifs <;> omega

/-- The police tier as a function of the score (thresholds 10 / 7 / 4). -/
def threatRankOfScore (n : ℤ) : ℕ :=
  if n ≥ 10 then 3 else if n ≥ 7 then 2 else if n ≥ 4 then 1 else 0

lemma assess_threat_score_eq (et : String) (w h : Bool) (sc vc : ℤ)
    (sp vo : Bool) :
    (assess_threat_level et w h sc vc sp vo).threat_score =
      police_threat_score et w h sc vc sp vo := by
  simp only [assess_threat_level]
  split_ifs <;> rfl

lemma assess_threat_rank_eq (et : String) (w h : Bool) (sc vc : ℤ)
    (sp vo : Bool) :
    tierRank (assess_threat_level et w h sc vc sp vo).threat_level =
      threatRankOfScore (police_threat_score et w h sc vc sp vo) := by
  simp only [assess_threat_level, threatRankOfScore]
  split_ifs <;> rfl

lemma threatRankOfScore_mono {a b : ℤ} (h : a ≤ b) :
    threatRankOfScore a ≤ threatRankOfScore b := by
  unfold threatRankOfScore
  split_ifs <;> omega

/-- The medical tier never drops when the critical condition and the
moderate condition each only gain truth. -/
lemma assess_ambulance_rank_mono {sym1 sym2 : List String} {pc1 pc2 : ℤ}
    {c1 c2 b1 b2 : Bool}
    (hcrit : (!b1 || !c1 || symptomMatch critical_symptoms sym1) = true →
             (!b2 || !c2 || symptomMatch critical_symptoms sym2) = true)
    (hmod : (symptomMatch moderate_symptoms sym1 = true ∨ 2 < pc1) →
            (symptomMatch moderate_symptoms sym2 = true ∨ 2 < pc2)) :
    tierRank (assess_ambulance_need sym1 pc1 c1 b1).urgency_level ≤
      tierRank (assess_ambulance_need sym2 pc2 c2 b2).urgency_level := by
  simp only [assess_ambulance_need]
  split_ifs <;> simp_all [tierRank]

/-- The points contributed by the spread rate in `fire_severity_score`. -/
def spread_rate_points (sr : String) : ℤ :=
  if sr = "fast" then 3 else if sr = "moderate" then 1 else 0

lemma fire_score_smoke_mono (fl : Bool) (bt : String) (p f : ℤ)
    (sr : String) :
    fire_severity_score false fl bt p f sr ≤
      fire_severity_score true fl bt p f sr := by
  unfold fire_severity_score
  gcongr <;> simp

lemma fire_score_flames_mono (sm : Bool) (bt : String) (p f : ℤ)
    (sr : String) :
    fire_severity_score sm false bt p f sr ≤
      fire_severity_score sm true bt p f sr := by
  unfold fire_severity_score
  gcongr <;> simp

lemma fire_score_people_mono (sm fl : Bool) (bt : String) {p p' : ℤ}
    (f : ℤ) (sr : String) (h : p ≤ p') :
    fire_severity_score sm fl bt p f sr ≤
      fire_severity_score sm fl bt p' f sr := by
  unfold fire_severity_score
  gcongr <;> (split_ifs <;> omega)

lemma fire_score_building_mono (sm fl : Bool) {bt bt' : String} (p f : ℤ)
    (sr : String) (h : high_risk_buildings.contains (lowerStr bt) = false) :
    fire_severity_score sm fl bt p f sr ≤
      fire_severity_score sm fl bt' p f sr := by
  unfold fire_severity_score
  gcongr <;> (split_ifs <;> simp_all)

lemma fire_score_floor_mono (sm fl : Bool) (bt : String) (p : ℤ)
    {f f' : ℤ} (sr : String) (h : f ≤ f') :
    fire_severity_score sm fl bt p f sr ≤
      fire_severity_score sm fl bt p f' sr := by
  unfold fire_severity_score
  gcongr <;> (split_ifs <;> omega)

lemma fire_score_spread_mono (sm fl : Bool) (bt : String) (p f : ℤ)
    {sr sr' : String} (h : spread_rate_points sr ≤ spread_rate_points sr') :
    fire_severity_score sm fl bt p f sr ≤
      fire_severity_score sm fl bt p f sr' := by
  unfold fire_severity_score
  unfold spread_rate_points at h
  gcongr

lemma police_score_weapons_mono (et : String) (h : Bool) (sc vc : ℤ)
    (sp vo : Bool) :
    police_threat_score et false h sc vc sp vo ≤
      police_threat_score et true h sc vc sp vo := by
  unfold police_threat_score
  gcongr <;> simp

lemma police_score_hostage_mono (et : String) (w : Bool) (sc vc : ℤ)
    (sp vo : Bool) :
    police_threat_score et w false sc vc sp vo ≤
      police_threat_score et w true sc vc sp vo := by
  unfold police_threat_score
  gcongr <;> simp

lemma police_score_present_mono (et : String) (w h : Bool) (sc vc : ℤ)
    (vo : Bool) :
    police_threat_score et w h sc vc false vo ≤
      police_threat_score et w h sc vc true vo := by
  unfold police_threat_score
  gcongr <;> simp

lemma police_score_violence_mono (et : String) (w h : Bool) (sc vc : ℤ)
    (sp : Bool) :
    police_threat_score et w h sc vc sp false ≤
      police_threat_score et w h sc vc sp true := by
  unfold police_threat_score
  gcongr <;> simp

lemma police_score_suspects_mono (et : String) (w h : Bool) {sc sc' : ℤ}
    (vc : ℤ) (sp vo : Bool) (hsc : sc ≤ sc') :
    police_threat_score et w h sc vc sp vo ≤
      police_threat_score et w h sc' vc sp vo := by
  unfold police_threat_score
  gcongr <;> (split_ifs <;> omega)

lemma police_score_victims_mono (et : String) (w h : Bool) (sc : ℤ)
    {vc vc' : ℤ} (sp vo : Bool) (hvc : vc ≤ vc') :
    police_threat_score et w h sc vc sp vo ≤
      police_threat_score et w h sc vc' sp vo := by
  unfold police_threat_score
  gcongr <;> (split_ifs <;> omega)

/-! ## Claim C9 -/

/-- **C9.** Severity scoring is monotonic: for each assessment function
and each single aggravating factor (a symptom appended, consciousness or
breathing lost, a count increased, a boolean factor switched on, the
building type upgraded from non-high-risk, the spread rate upgraded),
the run with the added factor yields a numeric score and an ordinal tier
at least those of the run without it (the medical assessor has no
numeric score, only the tier). -/
theorem assessment_monotonicity :
    (∀ (symptoms : List String) (x : String) (pc : ℤ) (c b : Bool),
      tierRank (assess_ambulance_need symptoms pc c b).urgency_level ≤
        tierRank (assess_ambulance_need (symptoms ++ [x]) pc c b).urgency_level) ∧
    (∀ (symptoms : List String) (pc : ℤ) (b : Bool),
      tierRank (assess_ambulance_need symptoms pc true b).urgency_level ≤
        tierRank (assess_ambulance_need symptoms pc false b).urgency_level) ∧
    (∀ (symptoms : List String) (pc : ℤ) (c : Bool),
      tierRank (assess_ambulance_need symptoms pc c true).urgency_level ≤
        tierRank (assess_ambulance_need symptoms pc c false).urgency_level) ∧
    (∀ (symptoms : List String) (pc pc' : ℤ) (c b : Bool), pc ≤ pc' →
      tierRank (assess_ambulance_need symptoms pc c b).urgency_level ≤
        tierRank (assess_ambulance_need symptoms pc' c b).urgency_level) ∧
    (∀ (fl : Bool) (bt : String) (p f : ℤ) (sr : String),
      (assess_fire_severity false fl bt p f sr).severity_score ≤
        (assess_fire_severity true fl bt p f sr).severity_score ∧
      tierRank (assess_fire_severity false fl bt p f sr).severity_level ≤
        tierRank (assess_fire_severity true fl bt p f sr).severity_level) ∧
    (∀ (sm : Bool) (bt : String) (p f : ℤ) (sr : String),
      (assess_fire_severity sm false bt p f sr).severity_score ≤
        (assess_fire_severity sm true bt p f sr).severity_score ∧
      tierRank (assess_fire_severity sm false bt p f sr).severity_level ≤
        tierRank (assess_fire_severity sm true bt p f sr).severity_level) ∧
    (∀ (sm fl : Bool) (bt : String) (p p' f : ℤ) (sr : String), p ≤ p' →
      (assess_fire_severity sm fl bt p f sr).severity_score ≤
        (assess_fire_severity sm fl bt p' f sr).severity_score ∧
      tierRank (assess_fire_severity sm fl bt p f sr).severity_level ≤
        tierRank (assess_fire_severity sm fl bt p' f sr).severity_level) ∧
    (∀ (sm fl : Bool) (bt bt' : String) (p f : ℤ) (sr : String),
      high_risk_buildings.contains (lowerStr bt) = false →
      (assess_fire_severity sm fl bt p f sr).severity_score ≤
        (assess_fire_severity sm fl bt' p f sr).severity_score ∧
      tierRank (assess_fire_severity sm fl bt p f sr).severity_level ≤
        tierRank (assess_fire_severity sm fl bt' p f sr).severity_level) ∧
    (∀ (sm fl : Bool) (bt : String) (p f f' : ℤ) (sr : String), f ≤ f' →
      (assess_fire_severity sm fl bt p f sr).severity_score ≤
        (assess_fire_severity sm fl bt p f' sr).severity_score ∧
      tierRank (assess_fire_severity sm fl bt p f sr).severity_level ≤
        tierRank (assess_fire_severity sm fl bt p f' sr).severity_level) ∧
    (∀ (sm fl : Bool) (bt : String) (p f : ℤ) (sr sr' : String),
      spread_rate_points sr ≤ spread_rate_points sr' →
      (assess_fire_severity sm fl bt p f sr).severity_score ≤
        (assess_fire_severity sm fl bt p f sr').severity_score ∧
      tierRank (assess_fire_severity sm fl bt p f sr).severity_level ≤
        tierRank (assess_fire_severity sm fl bt p f sr').severity_level) ∧
    (∀ (et : String) (h : Bool) (sc vc : ℤ) (sp vo : Bool),
      (assess_threat_level et false h sc vc sp vo).threat_score ≤
        (assess_threat_level et true h sc vc sp vo).threat_score ∧
      tierRank (assess_threat_level et false h sc vc sp vo).threat_level ≤
        tierRank (assess_threat_level et true h sc vc sp vo).threat_level) ∧
    (∀ (et : String) (w : Bool) (sc vc : ℤ) (sp vo : Bool),
      (assess_threat_level et w false sc vc sp vo).threat_score ≤
        (assess_threat_level et w true sc vc sp vo).threat_score ∧
      tierRank (assess_threat_level et w false sc vc sp vo).threat_level ≤
        tierRank (assess_threat_level et w true sc vc sp vo).threat_level) ∧
    (∀ (et : String) (w h : Bool) (sc vc : ℤ) (vo : Bool),
      (assess_threat_level et w h sc vc false vo).threat_score ≤
        (assess_threat_level et w h sc vc true vo).threat_score ∧
      tierRank (assess_threat_level et w h sc vc false vo).threat_level ≤
        tierRank (assess_threat_level et w h sc vc true vo).threat_level) ∧
    (∀ (et : String) (w h : Bool) (sc vc : ℤ) (sp : Bool),
      (assess_threat_level et w h sc vc sp false).threat_score ≤
        (assess_threat_level et w h sc vc sp true).threat_score ∧
      tierRank (assess_threat_level et w h sc vc sp false).threat_level ≤
        tierRank (assess_threat_level et w h sc vc sp true).threat_level) ∧
    (∀ (et : String) (w h : Bool) (sc sc' vc : ℤ) (sp vo : Bool), sc ≤ sc' →
      (assess_threat_level et w h sc vc sp vo).threat_score ≤
        (assess_threat_level et w h sc' vc sp vo).threat_score ∧
      tierRank (assess_threat_level et w h sc vc sp vo).threat_level ≤
        tierRank (assess_threat_level et w h sc' vc sp vo).threat_level) ∧
    (∀ (et : String) (w h : Bool) (sc vc vc' : ℤ) (sp vo : Bool), vc ≤ vc' →
      (assess_threat_level et w h sc vc sp vo).threat_score ≤
        (assess_threat_level et w h sc vc' sp vo).threat_score ∧
      tierRank (assess_threat_level et w h sc vc sp vo).threat_level ≤
        tierRank (assess_threat_level et w h sc vc' sp vo).threat_level) := by
  refine ⟨?_, ?_, ?_, ?_, ?_, ?_, ?_, ?_, ?_, ?_, ?_, ?_, ?_, ?_, ?_, ?_⟩
  · intro symptoms x pc c b
    apply assess_ambulance_rank_mono
    · intro h
      simp only [Bool.or_eq_true] at h ⊢
      rcases h with (h | h) | h
      · exact Or.inl (Or.inl h)
      · exact Or.inl (Or.inr h)
      · exact Or.inr (symptomMatch_append _ _ _ h)
    · intro h
      rcases h with h | h
      · exact Or.inl (symptomMatch_append _ _ _ h)
      · exact Or.inr h
  · intro symptoms pc b
    apply assess_ambulance_rank_mono
    · intro h
      simp
    · exact id
  · intro symptoms pc c
    apply assess_ambulance_rank_mono
    · intro h
      simp
    · exact id
  · intro symptoms pc pc' c b hpc
    apply assess_ambulance_rank_mono
    · exact id
    · intro h
      rcases h with h | h
      · exact Or.inl h
      · exact Or.inr (by omega)
  · intro fl bt p f sr
    rw [assess_fire_score_eq, assess_fire_score_eq, assess_fire_rank_eq,
      assess_fire_rank_eq]
    exact ⟨fire_score_smoke_mono fl bt p f sr,
      fireRankOfScore_mono (fire_score_smoke_mono fl bt p f sr)⟩
  · intro sm bt p f sr
    rw [assess_fire_score_eq, assess_fire_score_eq, assess_fire_rank_eq,
      assess_fire_rank_eq]
    exact ⟨fire_score_flames_mono sm bt p f sr,
      fireRankOfScore_mono (fire_score_flames_mono sm bt p f sr)⟩
  · intro sm fl bt p p' f sr hp
    rw [assess_fire_score_eq, assess_fire_score_eq, assess_fire_rank_eq,
      assess_fire_rank_eq]
    exact ⟨fire_score_people_mono sm fl bt f sr hp,
      fireRankOfScore_mono (fire_score_people_mono sm fl bt f sr hp)⟩
  · intro sm fl bt bt' p f sr hbt
    rw [assess_fire_score_eq, assess_fire_score_eq, assess_fire_rank_eq,
      assess_fire_rank_eq]
    exact ⟨fire_score_building_mono sm fl p f sr hbt,
      fireRankOfScore_mono (fire_score_building_mono sm fl p f sr hbt)⟩
  · intro sm fl bt p f f' sr hf
    rw [assess_fire_score_eq, assess_fire_score_eq, assess_fire_rank_eq,
      assess_fire_rank_eq]
    exact ⟨fire_score_floor_mono sm fl bt p sr hf,
      fireRankOfScore_mono (fire_score_floor_mono sm fl bt p sr hf)⟩
  · intro sm fl bt p f sr sr' hsr
    rw [assess_fire_score_eq, assess_fire_score_eq, assess_fire_rank_eq,
      assess_fire_rank_eq]
    exact ⟨fire_score_spread_mono sm fl bt p f hsr,
      fireRankOfScore_mono (fire_score_spread_mono sm fl bt p f hsr)⟩
  · intro et h sc vc sp vo
    rw [assess_threat_score_eq, assess_threat_score_eq, assess_threat_rank_eq,
      assess_threat_rank_eq]
    exact ⟨police_score_weapons_mono et h sc vc sp vo,
      threatRankOfScore_mono (police_score_weapons_mono et h sc vc sp vo)⟩
  · intro et w sc vc sp vo
    rw [assess_threat_score_eq, assess_threat_score_eq, assess_threat_rank_eq,
      assess_threat_rank_eq]
    exact ⟨police_score_hostage_mono et w sc vc sp vo,
      threatRankOfScore_mono (police_score_hostage_mono et w sc vc sp vo)⟩
  · intro et w h sc vc vo
    rw [assess_threat_score_eq, assess_threat_score_eq, assess_threat_rank_eq,
      assess_threat_rank_eq]
    exact ⟨police_score_present_mono et w h sc vc vo,
      threatRankOfScore_mono (police_score_present_mono et w h sc vc vo)⟩
  · intro et w h sc vc sp
    rw [assess_threat_score_eq, assess_threat_score_eq, assess_threat_rank_eq,
      assess_threat_rank_eq]
    exact ⟨police_score_violence_mono et w h sc vc sp,
      threatRankOfScore_mono (police_score_violence_mono et w h sc vc sp)⟩
  · intro et w h sc sc' vc sp vo hsc
    rw [assess_threat_score_eq, assess_threat_score_eq, assess_threat_rank_eq,
      assess_threat_rank_eq]
    exact ⟨police_score_suspects_mono et w h vc sp vo hsc,
      threatRankOfScore_mono (police_score_suspects_mono et w h vc sp vo hsc)⟩
  · intro et w h sc vc vc' sp vo hvc
    rw [assess_threat_score_eq, assess_threat_score_eq, assess_threat_rank_eq,
      assess_threat_rank_eq]
    exact ⟨police_score_victims_mono et w h sc sp vo hvc,
      threatRankOfScore_mono (police_score_victims_mono et w h sc sp vo hvc)⟩

/-- Witness for C9 at concrete inputs, discharging each hypothesis of the
count-, building-, and spread-monotonicity conjuncts. -/
theorem assessment_monotonicity_witness :
    (tierRank (assess_ambulance_need ["headache"] 1 true true).urgency_level ≤
      tierRank (assess_ambulance_need ["headache"] 3 true true).urgency_level) ∧
    ((assess_fire_severity true true "residential" 0 1 "unknown").severity_score ≤
      (assess_fire_severity true true "residential" 2 1 "unknown").severity_score ∧
     tierRank (assess_fire_severity true true "residential" 0 1
        "unknown").severity_level ≤
      tierRank (assess_fire_severity true true "residential" 2 1
        "unknown").severity_level) ∧
    ((assess_fire_severity true true "residential" 0 1 "unknown").severity_score ≤
      (assess_fire_severity true true "commercial" 0 1 "unknown").severity_score ∧
     tierRank (assess_fire_severity true true "residential" 0 1
        "unknown").severity_level ≤
      tierRank (assess_fire_severity true true "commercial" 0 1
        "unknown").severity_level) ∧
    ((assess_fire_severity true true "residential" 0 1 "unknown").severity_score ≤
      (assess_fire_severity true true "residential" 0 4 "unknown").severity_score ∧
     tierRank (assess_fire_severity true true "residential" 0 1
        "unknown").severity_level ≤
      tierRank (assess_fire_severity true true "residential" 0 4
        "unknown").severity_level) ∧
    ((assess_fire_severity true true "residential" 0 1 "unknown").severity_score ≤
      (assess_fire_severity true true "residential" 0 1 "fast").severity_score ∧
     tierRank (assess_fire_severity true true "residential" 0 1
        "unknown").severity_level ≤
      tierRank (assess_fire_severity true true "residential" 0 1
        "fast").severity_level) ∧
    ((assess_threat_level "robbery" false false 2 1 false false).threat_score ≤
      (assess_threat_level "robbery" false false 3 1 false false).threat_score ∧
     tierRank (assess_threat_level "robbery" false false 2 1 false
        false).threat_level ≤
      tierRank (assess_threat_level "robbery" false false 3 1 false
        false).threat_level) ∧
    ((assess_threat_level "robbery" false false 2 1 false false).threat_score ≤
      (assess_threat_level "robbery" false false 2 2 false false).threat_score ∧
     tierRank (assess_threat_level "robbery" false false 2 1 false
        false).threat_level ≤
      tierRank (assess_threat_level "robbery" false false 2 2 false
        false).threat_level) :=
  ⟨assessment_monotonicity.2.2.2.1 ["headache"] 1 3 true true (by decide),
   assessment_monotonicity.2.2.2.2.2.2.1 true true "residential" 0 2 1
     "unknown" (by decide),
   assessment_monotonicity.2.2.2.2.2.2.2.1 true true "residential"
     "commercial" 0 1 "unknown" (by decide),
   assessment_monotonicity.2.2.2.2.2.2.2.2.1 true true "residential" 0 1 4
     "unknown" (by decide),
   assessment_monotonicity.2.2.2.2.2.2.2.2.2.1 true true "residential" 0 1
     "unknown" "fast" (by decide),
   assessment_monotonicity.2.2.2.2.2.2.2.2.2.2.2.2.2.2.1 "robbery" false
     false 2 3 1 false false (by decide),
   assessment_monotonicity.2.2.2.2.2.2.2.2.2.2.2.2.2.2.2 "robbery" false
     false 2 1 2 false false (by decide)⟩

/-! ## Claim C1 -/

/-- **C1.** Each category's dispatch operation fails with the not-found
error when no unit carries the requested id, fails with the
invalid-state error (naming the current status) when the unit is not
`available`, and otherwise succeeds: every unit with that id is marked
`dispatched`, exactly one new dispatch record with status `dispatched`
referencing the unit is appended, and — for fire only — the owning
station's `available_units` counter is decremented by one while other
stations are unchanged.  (For fire and police the unit row is read
through a join with its station, so the stated behaviour assumes the
unit's `station_id` resolves; a dangling `station_id` also reports
not-found.) -/
theorem dispatch_spec :
    (∀ (s : AmbulanceState) (uid : ℕ) (lat lon : ℚ) (et : String) (pc : ℤ)
        (notes : Option String),
      ((∀ a ∈ s.ambulances, a.id ≠ uid) →
        dispatch_ambulance s uid lat lon et pc notes =
          .failed "Ambulance not found") ∧
      (∀ a, s.ambulances.find? (fun x => x.id == uid) = some a →
        a.status ≠ "available" →
        dispatch_ambulance s uid lat lon et pc notes =
          .failed ("Ambulance is currently " ++ a.status)) ∧
      (∀ a, s.ambulances.find? (fun x => x.id == uid) = some a →
        a.status = "available" →
        ∃ s', dispatch_ambulance s uid lat lon et pc notes =
            .ok s.next_dispatch_id s' ∧
          (∀ x ∈ s'.ambulances, x.id = uid → x.status = "dispatched") ∧
          s'.dispatches = s.dispatches ++
            [⟨s.next_dispatch_id, uid, lat, lon, et, pc, notes,
              "dispatched"⟩])) ∧
    (∀ (s : FireState) (uid : ℕ) (lat lon : ℚ) (ft sev : String) (pt : ℤ)
        (notes : Option String),
      ((∀ t ∈ s.fire_trucks, t.id ≠ uid) →
        dispatch_fire_truck s uid lat lon ft sev pt notes =
          .failed "Fire truck not found") ∧
      (∀ t st, s.fire_trucks.find? (fun x => x.id == uid) = some t →
        stationOf s t = some st → t.status ≠ "available" →
        dispatch_fire_truck s uid lat lon ft sev pt notes =
          .failed ("Fire truck is currently " ++ t.status)) ∧
      (∀ t st, s.fire_trucks.find? (fun x => x.id == uid) = some t →
        stationOf s t = some st → t.status = "available" →
        ∃ s', dispatch_fire_truck s uid lat lon ft sev pt notes =
            .ok s.next_dispatch_id s' ∧
          (∀ x ∈ s'.fire_trucks, x.id = uid → x.status = "dispatched") ∧
          s'.dispatches = s.dispatches ++
            [⟨s.next_dispatch_id, uid, lat, lon, ft, sev, pt, notes,
              "dispatched"⟩] ∧
          (∀ st' ∈ s.fire_stations,
            (st'.id = t.station_id →
              { st' with available_units := st'.available_units - 1 } ∈
                s'.fire_stations) ∧
            (st'.id ≠ t.station_id → st' ∈ s'.fire_stations)))) ∧
    (∀ (s : PoliceState) (uid : ℕ) (lat lon : ℚ) (et tl cn : String)
        (notes : Option String),
      ((∀ u ∈ s.patrol_units, u.id ≠ uid) →
        dispatch_patrol_unit s uid lat lon et tl cn notes =
          .failed "Patrol unit not found") ∧
      (∀ u st, s.patrol_units.find? (fun x => x.id == uid) = some u →
        policeStationOf s u = some st → u.status ≠ "available" →
        dispatch_patrol_unit s uid lat lon et tl cn notes =
          .failed ("Patrol unit is currently " ++ u.status)) ∧
      (∀ u st, s.patrol_units.find? (fun x => x.id == uid) = some u →
        policeStationOf s u = some st → u.status = "available" →
        ∃ s', dispatch_patrol_unit s uid lat lon et tl cn notes =
            .ok s.next_dispatch_id s' ∧
          (∀ x ∈ s'.patrol_units, x.id = uid → x.status = "dispatched") ∧
          s'.dispatches = s.dispatches ++
            [⟨s.next_dispatch_id, uid, lat, lon, et, tl, cn, notes,
              "dispatched"⟩])) := by
  refine ⟨?_, ?_, ?_⟩
  · intro s uid lat lon et pc notes
    refine ⟨?_, ?_, ?_⟩
    · intro h
      unfold dispatch_ambulance
      have hf : s.ambulances.find? (fun x => x.id == uid) = none := by
        rw [List.find?_eq_none]
        intro a ha
        simpa using h a ha
      rw [hf]
    · intro a hf hst
      unfold dispatch_ambulance
      rw [hf]
      dsimp only
      rw [if_pos hst]
    · intro a hf hst
      unfold dispatch_ambulance
      rw [hf]
      dsimp only
      rw [if_neg (fun hcon => hcon hst)]
      refine ⟨_, rfl, ?_, rfl⟩
      intro x hx hxid
      rcases List.mem_map.1 hx with ⟨a', ha', rfl⟩
      by_cases hid : (a'.id == uid) = true
      · rw [if_pos hid]
      · rw [if_neg hid] at hxid ⊢
        exact absurd hxid (by simpa using hid)
  · intro s uid lat lon ft sev pt notes
    refine ⟨?_, ?_, ?_⟩
    · intro h
      unfold dispatch_fire_truck
      have hf : s.fire_trucks.find? (fun x => x.id == uid) = none := by
        rw [List.find?_eq_none]
        intro t ht
        simpa using h t ht
      rw [hf]
    · intro t st hf hstat hst
      unfold dispatch_fire_truck
      rw [hf]
      dsimp only
      rw [hstat]
      dsimp only
      rw [if_pos hst]
    · intro t st hf hstat hst
      unfold dispatch_fire_truck
      rw [hf]
      dsimp only
      rw [hstat]
      dsimp only
      rw [if_neg (fun hcon => hcon hst)]
      refine ⟨_, rfl, ?_, rfl, ?_⟩
      · intro x hx hxid
        rcases List.mem_map.1 hx with ⟨t', ht', rfl⟩
        by_cases hid : (t'.id == uid) = true
        · rw [if_pos hid]
        · rw [if_neg hid] at hxid ⊢
          exact absurd hxid (by simpa using hid)
      · intro st' hst'
        constructor
        · intro hid
          have hmem := List.mem_map_of_mem
            (fun x => if x.id == t.station_id then
              { x with available_units := x.available_units - 1 } else x) hst'
          simpa [hid] using hmem
        · intro hid
          have hmem := List.mem_map_of_mem
            (fun x => if x.id == t.station_id then
              { x with available_units := x.available_units - 1 } else x) hst'
          simpa [hid] using hmem
  · intro s uid lat lon et tl cn notes
    refine ⟨?_, ?_, ?_⟩
    · intro h
      unfold dispatch_patrol_unit
      have hf : s.patrol_units.find? (fun x => x.id == uid) = none := by
        rw [List.find?_eq_none]
        intro u hu
        simpa using h u hu
      rw [hf]
    · intro u st hf hstat hst
      unfold dispatch_patrol_unit
      rw [hf]
      dsimp only
      rw [hstat]
      dsimp only
      rw [if_pos hst]
    · intro u st hf hstat hst
      unfold dispatch_patrol_unit
      rw [hf]
      dsimp only
      rw [hstat]
      dsimp only
      rw [if_neg (fun hcon => hcon hst)]
      refine ⟨_, rfl, ?_, rfl⟩
      intro x hx hxid
      rcases List.mem_map.1 hx with ⟨u', hu', rfl⟩
      by_cases hid : (u'.id == uid) = true
      · rw [if_pos hid]
      · rw [if_neg hid] at hxid ⊢
        exact absurd hxid (by simpa using hid)

/-- Witness for C1 at the concrete demo fleets: a missing ambulance id
reports not-found, and a successful dispatch in each category. -/
theorem dispatch_spec_witness :
    (dispatch_ambulance demoAmbState 99 3 4 "cardiac" 1 none =
      .failed "Ambulance not found") ∧
    (∃ s', dispatch_ambulance demoAmbState 1 3 4 "cardiac" 1 none =
        .ok 1 s' ∧
      (∀ x ∈ s'.ambulances, x.id = 1 → x.status = "dispatched") ∧
      s'.dispatches = [] ++ [⟨1, 1, 3, 4, "cardiac", 1, none, "dispatched"⟩]) ∧
    (∃ s', dispatch_fire_truck demoFireState 1 3 4 "building" "high" 0 none =
        .ok 1 s' ∧
      (∀ x ∈ s'.fire_trucks, x.id = 1 → x.status = "dispatched") ∧
      s'.dispatches = [] ++
        [⟨1, 1, 3, 4, "building", "high", 0, none, "dispatched"⟩] ∧
      (∀ st' ∈ demoFireState.fire_stations,
        (st'.id = 1 →
          { st' with available_units := st'.available_units - 1 } ∈
            s'.fire_stations) ∧
        (st'.id ≠ 1 → st' ∈ s'.fire_stations))) ∧
    (∃ s', dispatch_patrol_unit demoPoliceState 1 3 4 "robbery" "medium"
        "CASE-7" none = .ok 1 s' ∧
      (∀ x ∈ s'.patrol_units, x.id = 1 → x.status = "dispatched") ∧
      s'.dispatches = [] ++
        [⟨1, 1, 3, 4, "robbery", "medium", "CASE-7", none, "dispatched"⟩]) :=
  ⟨(dispatch_spec.1 demoAmbState 99 3 4 "cardiac" 1 none).1 (by decide),
   (dispatch_spec.1 demoAmbState 1 3 4 "cardiac" 1 none).2.2 demoAmb
     (by decide) (by decide),
   (dispatch_spec.2.1 demoFireState 1 3 4 "building" "high" 0 none).2.2
     demoFireTruck demoFireStation (by decide) (by decide) (by decide),
   (dispatch_spec.2.2 demoPoliceState 1 3 4 "robbery" "medium" "CASE-7"
     none).2.2 demoPatrolUnit demoPoliceStation (by decide) (by decide)
     (by decide)⟩

/-! ## Sortedness and permutation facts for the nearby searches -/

lemma sortByDist_perm {α : Type} (key : α → ℚ) (l : List α) :
    (sortByDist key l).Perm l :=
  List.perm_insertionSort _ _

lemma sortByDist_sorted {α : Type} (key : α → ℚ) (l : List α) :
    List.Sorted (distLe key) (sortByDist key l) :=
  List.sorted_insertionSort _ _

lemma mem_sortByDist {α : Type} {key : α → ℚ} {l : List α} {x : α} :
    x ∈ sortByDist key l ↔ x ∈ l :=
  (sortByDist_perm key l).mem_iff

lemma nearby_ambulances_sorted (dist : Dist) (s : AmbulanceState)
    (lat lon R : ℚ) (ty : Option String) :
    List.Sorted (distLe AmbulanceEntry.distance_km)
      (get_nearby_ambulances dist s lat lon R ty) := by
  simp only [get_nearby_ambulances]
  exact sortByDist_sorted _ _

lemma nearby_fire_trucks_sorted (dist : Dist) (s : FireState)
    (lat lon R : ℚ) (ty : Option String) :
    List.Sorted (distLe FireTruckEntry.distance_km)
      (get_nearby_fire_trucks dist s lat lon R ty) := by
  simp only [get_nearby_fire_trucks]
  exact sortByDist_sorted _ _

lemma nearby_patrol_units_sorted (dist : Dist) (s : PoliceState)
    (lat lon R : ℚ) (ty : Option String) :
    List.Sorted (distLe PatrolEntry.distance_km)
      (get_nearby_patrol_units dist s lat lon R ty) := by
  simp only [get_nearby_patrol_units]
  exact sortByDist_sorted _ _

/-! ## Claim C4 -/

/-- **C4.** The nearby searches return exactly the available (and
type-matching, when a filter is given) units whose distance from the
query point is at most the radius — as a permutation of the filtered
fleet, where a fire truck's distance is the distance to its owning
station — sorted non-decreasing by the reported distance, with every
returned entry within the radius and carrying the rounded distance. -/
theorem nearby_search_spec :
    (∀ (dist : Dist) (s : AmbulanceState) (lat lon R : ℚ)
        (ty : Option String),
      ((get_nearby_ambulances dist s lat lon R ty).map
          AmbulanceEntry.amb).Perm
        (s.ambulances.filter fun a =>
          a.status == "available" && optFilterOk ty a.ambulance_type &&
            decide (dist lat lon a.latitude a.longitude ≤ R)) ∧
      List.Sorted (distLe AmbulanceEntry.distance_km)
        (get_nearby_ambulances dist s lat lon R ty) ∧
      (∀ e ∈ get_nearby_ambulances dist s lat lon R ty,
        e.amb.status = "available" ∧
        dist lat lon e.amb.latitude e.amb.longitude ≤ R ∧
        e.distance_km = round2 (dist lat lon e.amb.latitude e.amb.longitude))) ∧
    (∀ (dist : Dist) (s : FireState) (lat lon R : ℚ) (ty : Option String),
      ((get_nearby_fire_trucks dist s lat lon R ty).map
          FireTruckEntry.truck).Perm
        (s.fire_trucks.filter fun t =>
          t.status == "available" && optFilterOk ty t.truck_type &&
            (match stationOf s t with
             | some st => decide (dist lat lon st.latitude st.longitude ≤ R)
             | none => false)) ∧
      List.Sorted (distLe FireTruckEntry.distance_km)
        (get_nearby_fire_trucks dist s lat lon R ty) ∧
      (∀ e ∈ get_nearby_fire_trucks dist s lat lon R ty,
        e.truck.status = "available" ∧
        stationOf s e.truck = some e.station ∧
        dist lat lon e.station.latitude e.station.longitude ≤ R ∧
        e.distance_km =
          round2 (dist lat lon e.station.latitude e.station.longitude))) := by
  constructor
  · intro dist s lat lon R ty
    refine ⟨?_, nearby_ambulances_sorted dist s lat lon R ty, ?_⟩
    · simp only [get_nearby_ambulances]
      rw [filter_then_filterMap]
      refine ((sortByDist_perm _ _).map AmbulanceEntry.amb).trans ?_
      rw [map_filterMap_eq_filter _ AmbulanceEntry.amb _ ?_]
      · intro a
        by_cases hp : (a.status == "available" &&
            optFilterOk ty a.ambulance_type) = true
        · by_cases hd : dist lat lon a.latitude a.longitude ≤ R
          · simp [hp, hd]
          · simp [hp, hd]
        · simp [hp]
    · intro e he
      simp only [get_nearby_ambulances, mem_sortByDist] at he
      rcases List.mem_filterMap.1 he with ⟨a, ha, hFa⟩
      rw [List.mem_filter] at ha
      by_cases hd : dist lat lon a.latitude a.longitude ≤ R
      · rw [if_pos hd] at hFa
        cases hFa
        refine ⟨?_, hd, rfl⟩
        have := ha.2
        simp only [Bool.and_eq_true, beq_iff_eq] at this
        exact this.1
      · rw [if_neg hd] at hFa
        cases hFa
  · intro dist s lat lon R ty
    refine ⟨?_, nearby_fire_trucks_sorted dist s lat lon R ty, ?_⟩
    · simp only [get_nearby_fire_trucks]
      rw [List.filterMap_filterMap]
      refine ((sortByDist_perm _ _).map FireTruckEntry.truck).trans ?_
      rw [map_filterMap_eq_filter _ FireTruckEntry.truck _ ?_]
      · intro t
        cases hst : stationOf s t with
        | none => simp [hst]
        | some st =>
          by_cases hp : (t.status == "available" &&
              optFilterOk ty t.truck_type) = true
          · by_cases hd : dist lat lon st.latitude st.longitude ≤ R
            · simp [hst, hp, hd]
            · simp [hst, hp, hd]
          · simp [hst, hp]
    · intro e he
      simp only [get_nearby_fire_trucks, mem_sortByDist] at he
      rcases List.mem_filterMap.1 he with ⟨r, hr, hFr⟩
      rcases List.mem_filterMap.1 hr with ⟨t, ht, hf1⟩
      cases hst : stationOf s t with
      | none => rw [hst] at hf1; dsimp only at hf1; cases hf1
      | some st =>
        rw [hst] at hf1
        dsimp only at hf1
        by_cases hp : (t.status == "available" &&
            optFilterOk ty t.truck_type) = true
        · rw [if_pos hp] at hf1
          cases hf1
          by_cases hd : dist lat lon st.latitude st.longitude ≤ R
          · rw [if_pos hd] at hFr
            cases hFr
            refine ⟨?_, hst, hd, rfl⟩
            simp only [Bool.and_eq_true, beq_iff_eq] at hp
            exact hp.1
          · rw [if_neg hd] at hFr
            cases hFr
        · rw [if_neg hp] at hf1
          cases hf1

/-- Witness for C4 at the concrete demo fleets (radius 50, no type
filter). -/
theorem nearby_search_spec_witness :
    (((get_nearby_ambulances demoDist demoAmbState 0 0 50 none).map
        AmbulanceEntry.amb).Perm
      (demoAmbState.ambulances.filter fun a =>
        a.status == "available" && optFilterOk none a.ambulance_type &&
          decide (demoDist 0 0 a.latitude a.longitude ≤ 50)) ∧
     List.Sorted (distLe AmbulanceEntry.distance_km)
       (get_nearby_ambulances demoDist demoAmbState 0 0 50 none) ∧
     (∀ e ∈ get_nearby_ambulances demoDist demoAmbState 0 0 50 none,
       e.amb.status = "available" ∧
       demoDist 0 0 e.amb.latitude e.amb.longitude ≤ 50 ∧
       e.distance_km = round2 (demoDist 0 0 e.amb.latitude e.amb.longitude))) ∧
    (((get_nearby_fire_trucks demoDist demoFireState 0 0 50 none).map
        FireTruckEntry.truck).Perm
      (demoFireState.fire_trucks.filter fun t =>
        t.status == "available" && optFilterOk none t.truck_type &&
          (match stationOf demoFireState t with
           | some st => decide (demoDist 0 0 st.latitude st.longitude ≤ 50)
           | none => false)) ∧
     List.Sorted (distLe FireTruckEntry.distance_km)
       (get_nearby_fire_trucks demoDist demoFireState 0 0 50 none) ∧
     (∀ e ∈ get_nearby_fire_trucks demoDist demoFireState 0 0 50 none,
       e.truck.status = "available" ∧
       stationOf demoFireState e.truck = some e.station ∧
       demoDist 0 0 e.station.latitude e.station.longitude ≤ 50 ∧
       e.distance_km =
         round2 (demoDist 0 0 e.station.latitude e.station.longitude))) :=
  ⟨nearby_search_spec.1 demoDist demoAmbState 0 0 50 none,
   nearby_search_spec.2 demoDist demoFireState 0 0 50 none⟩

/-! ## Claim C10 -/

/-- The head of a distance-sorted list is closest. -/
lemma sorted_head_min {α : Type} {key : α → ℚ} {e : α} {es : List α}
    (h : List.Sorted (distLe key) (e :: es)) :
    ∀ e' ∈ e :: es, key e ≤ key e' := by
  intro e' he'
  rcases List.mem_cons.1 he' with rfl | he'
  · exact le_refl _
  · exact List.rel_of_sorted_cons h e' he'

/-- **C10 (counterexample).** The claim puts the police nearest-unit
radius between 30 and 50 km, but `dispatch_nearest_patrol_unit` searches
with `radius_km=20`: with one available unit 25 km out, the nearby search
at radius 30 (and 50) finds it, yet the nearest-unit dispatch reports
that no unit was found. -/
theorem police_nearest_radius_counterexample :
    get_nearby_patrol_units demoDist demoPoliceState 0 0 30 none ≠ [] ∧
    get_nearby_patrol_units demoDist demoPoliceState 0 0 50 none ≠ [] ∧
    dispatch_nearest_patrol_unit demoDist demoPoliceState 0 0 "robbery"
        "medium" false "CASE-2" none =
      .failed_suggest "No available patrol units found nearby"
        "Call emergency services directly at 100" := by
  decide

/-- **C10 (amended).** Each nearest-unit operation behaves as the nearby
search with its category's fixed default radius — 50 km for ambulances,
30 km for fire trucks, 20 km for patrol units (shown here without the
rapid-response preference) — returning the first, closest, entry (for
fire/police: dispatching that unit), or the category's human-readable
no-unit failure with its fallback suggestion when no unit qualifies. -/
theorem nearest_unit_search_spec :
    (∀ (dist : Dist) (s : AmbulanceState) (lat lon : ℚ) (ty : Option String),
      (get_nearby_ambulances dist s lat lon 50 ty = [] →
        get_nearest_ambulance dist s lat lon ty =
          .none_found "No available ambulances found nearby"
            "Try expanding search or contact emergency services directly") ∧
      (∀ e es, get_nearby_ambulances dist s lat lon 50 ty = e :: es →
        get_nearest_ambulance dist s lat lon ty = .found e ∧
        ∀ e' ∈ get_nearby_ambulances dist s lat lon 50 ty,
          e.distance_km ≤ e'.distance_km)) ∧
    (∀ (dist : Dist) (s : FireState) (lat lon : ℚ) (ft sev : String)
        (pt : ℤ) (ty notes : Option String),
      (get_nearby_fire_trucks dist s lat lon 30 ty = [] →
        dispatch_nearest_fire_truck dist s lat lon ft sev pt ty notes =
          .failed_suggest "No available fire trucks found nearby"
            "Call emergency services directly at 101") ∧
      (∀ e es, get_nearby_fire_trucks dist s lat lon 30 ty = e :: es →
        dispatch_nearest_fire_truck dist s lat lon ft sev pt ty notes =
          dispatch_fire_truck s e.truck.id lat lon ft sev pt notes ∧
        ∀ e' ∈ get_nearby_fire_trucks dist s lat lon 30 ty,
          e.distance_km ≤ e'.distance_km)) ∧
    (∀ (dist : Dist) (s : PoliceState) (lat lon : ℚ) (et tl cn : String)
        (notes : Option String),
      (get_nearby_patrol_units dist s lat lon 20 none = [] →
        dispatch_nearest_patrol_unit dist s lat lon et tl false cn notes =
          .failed_suggest "No available patrol units found nearby"
            "Call emergency services directly at 100") ∧
      (∀ e es, get_nearby_patrol_units dist s lat lon 20 none = e :: es →
        dispatch_nearest_patrol_unit dist s lat lon et tl false cn notes =
          dispatch_patrol_unit s e.unit.id lat lon et tl cn notes ∧
        ∀ e' ∈ get_nearby_patrol_units dist s lat lon 20 none,
          e.distance_km ≤ e'.distance_km)) := by
  refine ⟨?_, ?_, ?_⟩
  · intro dist s lat lon ty
    constructor
    · intro hnil
      unfold get_nearest_ambulance
      rw [hnil]
    · intro e es hcons
      have hs := nearby_ambulances_sorted dist s lat lon 50 ty
      rw [hcons] at hs
      refine ⟨?_, ?_⟩
      · unfold get_nearest_ambulance
        rw [hcons]
      · intro e' he'
        rw [hcons] at he'
        exact sorted_head_min hs e' he'
  · intro dist s lat lon ft sev pt ty notes
    constructor
    · intro hnil
      unfold dispatch_nearest_fire_truck
      rw [hnil]
    · intro e es hcons
      have hs := nearby_fire_trucks_sorted dist s lat lon 30 ty
      rw [hcons] at hs
      refine ⟨?_, ?_⟩
      · unfold dispatch_nearest_fire_truck
        rw [hcons]
      · intro e' he'
        rw [hcons] at he'
        exact sorted_head_min hs e' he'
  · intro dist s lat lon et tl cn notes
    constructor
    · intro hnil
      unfold dispatch_nearest_patrol_unit
      simp only [if_neg (by decide : ¬False), Bool.and_false,
        Bool.false_eq_true, if_false]
      rw [hnil]
    · intro e es hcons
      have hs := nearby_patrol_units_sorted dist s lat lon 20 none
      rw [hcons] at hs
      refine ⟨?_, ?_⟩
      · unfold dispatch_nearest_patrol_unit
        simp only [if_neg (by decide : ¬False), Bool.and_false,
          Bool.false_eq_true, if_false]
        rw [hcons]
      · intro e' he'
        rw [hcons] at he'
        exact sorted_head_min hs e' he'

/-- Witness for C10 (amended) at the concrete demo fleets: the single
ambulance 25 km out is found as nearest (and is closest), the single fire
truck 3 km out is dispatched, and the patrol search 25 km out of reach of
the 20-km radius reports the failure with its suggestion. -/
theorem nearest_unit_search_spec_witness :
    (get_nearest_ambulance demoDist demoAmbState 0 0 none =
      .found ⟨demoAmb, 25, 37⟩ ∧
     ∀ e' ∈ get_nearby_ambulances demoDist demoAmbState 0 0 50 none,
       (25 : ℚ) ≤ e'.distance_km) ∧
    (dispatch_nearest_fire_truck demoDist demoFireState 0 0 "building"
        "high" 0 none none =
      dispatch_fire_truck demoFireState 1 0 0 "building" "high" 0 none ∧
     ∀ e' ∈ get_nearby_fire_trucks demoDist demoFireState 0 0 30 none,
       (3 : ℚ) ≤ e'.distance_km) ∧
    dispatch_nearest_patrol_unit demoDist demoPoliceState 0 0 "robbery"
        "medium" false "CASE-3" none =
      .failed_suggest "No available patrol units found nearby"
        "Call emergency services directly at 100" :=
  ⟨(nearest_unit_search_spec.1 demoDist demoAmbState 0 0 none).2
      ⟨demoAmb, 25, 37⟩ [] (by decide),
   (nearest_unit_search_spec.2.1 demoDist demoFireState 0 0 "building"
      "high" 0 none none).2 ⟨demoFireTruck, demoFireStation, 3, 3⟩ []
      (by decide),
   (nearest_unit_search_spec.2.2 demoDist demoPoliceState 0 0 "robbery"
      "medium" "CASE-3" none).1 (by decide)⟩

end EmergencyDispatch
